import Mathlib

/-!
Verification of the PiPiXia lowering engine (`codegen.cc`, here `src/unnamed/part_001`).

The lowering engine walks the parsed tree and emits LLVM IR through an
`IRBuilder`.  We shallowly embed the relevant emission routines: each one is a
Lean function that builds the same basic-block structure (same blocks, same
instructions in the same order, same branch shape) that the C++ builder calls
produce.  Recursive calls to `codegenExpr` on operand subtrees are represented
by an `evalExpr` instruction whose run-time value is supplied by an oracle, so
that "the right operand is evaluated" is an observable event of a run.

A small interpreter executes an emitted fragment.  Runs record the printed
diagnostics, the oracle evaluations performed, the raw memory reads, the
stores, and the blocks visited, so the theorems can speak about diagnostics,
result values, merge points, memory safety and termination of the generated
code.

Machine integers are modelled as unbounded `Int` (no claim under verification
depends on overflow); doubles are modelled as `DFloat`, either NaN or an exact
rational, which is faithful for the operations the claims exercise (comparison
with the constant 0.0, and the NaN error value).

Compiler-side bookkeeping (temporary-memory stack, owned-string map, module
registry, loop-context stack, error counters) is embedded as explicit state
passing, one Lean function per C++ member function.
-/

namespace PPX

/-- Double values: NaN or an exact finite value.  `fin q` stands for the
finite double of value `q`; infinities do not arise in the fragments under
verification (division is guarded by a zero test before any `fdiv`). -/
inductive DFloat
  | nan
  | fin (q : ℚ)
deriving DecidableEq, Repr

/-- Run-time values of the embedded IR. -/
inductive RVal
  | int (n : Int)
  | dbl (v : DFloat)
  | ptr (p : Nat)
deriving DecidableEq, Repr

/-- Instruction operands: a named SSA register or a constant. -/
inductive Operand
  | reg (r : String)
  | cInt (n : Int)
  | cDbl (v : DFloat)
  | cPtr (p : Nat)
deriving DecidableEq, Repr

/-- Integer comparison predicates used by the emitted code. -/
inductive ICmp
  | eq
  | ne
  | slt
  | sgt
  | sle
  | sge
deriving DecidableEq, Repr

/-- Ordered float comparison predicates used by the emitted code. -/
inductive FCmp
  | oeq
  | one
  | olt
  | ogt
  | ole
  | oge
deriving DecidableEq, Repr

/-- Integer binary opcodes. -/
inductive IBin
  | add
  | sub
  | mul
  | sdiv
  | srem
deriving DecidableEq, Repr

/-- Float binary opcodes. -/
inductive FBin
  | fadd
  | fsub
  | fmul
  | fdiv
  | frem
deriving DecidableEq, Repr

/-- Instructions of the embedded IR.  `evalExpr tag dst` stands for a recursive
`codegenExpr` call on an operand subtree (its value comes from the run's
oracle); `loadElem` stands for the GEP-plus-load pair of an array element
access; `printf` is a call to the declared `printf` with a constant format
string; `callExit` is the `exit` call; `loadVar`/`store` are the load/store on
a variable's alloca slot. -/
inductive Instr
  | evalExpr (tag : Nat) (dst : String)
  | icmp (p : ICmp) (dst : String) (a b : Operand)
  | fcmp (p : FCmp) (dst : String) (a b : Operand)
  | orI1 (dst : String) (a b : Operand)
  | binInt (op : IBin) (dst : String) (a b : Operand)
  | binFlt (op : FBin) (dst : String) (a b : Operand)
  | sitofp (dst : String) (a : Operand)
  | fptosi (dst : String) (a : Operand)
  | zext (dst : String) (a : Operand)
  | sext (dst : String) (a : Operand)
  | truncTo (w : Nat) (dst : String) (a : Operand)
  | strlenOf (dst : String) (a : Operand)
  | loadElem (dst : String) (idx : Operand)
  | loadVar (dst : String) (v : String)
  | store (v : String) (a : Operand)
  | storeElem (idx : Operand) (a : Operand)
  | printf (fmt : String) (args : List Operand)
  | callExit (code : Int)
  | mallocCall (dst : String) (size : Operand)
  | libCall (fn : String) (args : List Operand)
  | phi (dst : String) (incoming : List (String × Operand))
deriving DecidableEq, Repr

/-- Block terminators.  `next` marks the block where the builder's insert
point is left when the emission routine returns: execution of the fragment is
complete there and lowering of the enclosing construct continues. -/
inductive Term
  | br (target : String)
  | condBr (c : Operand) (t f : String)
  | next
  | unreachable
deriving DecidableEq, Repr

/-- A basic block of an emitted fragment. -/
structure Block where
  name : String
  instrs : List Instr
  term : Term
deriving DecidableEq, Repr

/-- An emitted control-flow fragment: entry block name plus blocks. -/
structure Frag where
  entry : String
  blocks : List Block
deriving DecidableEq, Repr

/-- Prepend instructions at the start of the entry block (the instructions the
builder had already appended to the current block before the branchy part of
the emission). -/
def Frag.prependEntry (f : Frag) (is : List Instr) : Frag :=
  { f with blocks := f.blocks.map fun b =>
      if b.name = f.entry then { b with instrs := is ++ b.instrs } else b }

/-- Read-only context of a run: the oracle giving each `evalExpr` tag its
value, the variable slots, raw element memory, and dynamic string lengths. -/
structure RunCtx where
  oracle : Nat → RVal
  vars : String → RVal
  mem : Int → Int
  strLen : Nat → Int

/-- Mutable state of a run. -/
structure RunSt where
  env : List (String × RVal)
  output : List String
  evals : List Nat
  mems : List Int
  stores : List (String × RVal)
  memStores : List (Int × RVal)
  visited : List String
  prev : String
  nextPtr : Nat
deriving DecidableEq, Repr

/-- Initial run state. -/
def RunSt.init : RunSt :=
  { env := [], output := [], evals := [], mems := [], stores := [], memStores := []
    visited := [], prev := "", nextPtr := 1000 }

/-- Read a register from the environment (registers are written before read in
every emitted fragment; the default is never observed). -/
def RunSt.read (st : RunSt) (r : String) : RVal :=
  (st.env.lookup r).getD (.int 0)

/-- Evaluate an operand. -/
def evalOp (st : RunSt) : Operand → RVal
  | .reg r => st.read r
  | .cInt n => .int n
  | .cDbl v => .dbl v
  | .cPtr p => .ptr p

/-- View a value as an integer. -/
def RVal.asInt : RVal → Int
  | .int n => n
  | _ => 0

/-- View a value as a double. -/
def RVal.asDbl : RVal → DFloat
  | .dbl v => v
  | _ => .fin 0

/-- View a value as a pointer id. -/
def RVal.asPtr : RVal → Nat
  | .ptr p => p
  | _ => 0

/-- Integer comparison semantics. -/
def icmpEval (p : ICmp) (a b : Int) : Bool :=
  match p with
  | .eq => a = b
  | .ne => a ≠ b
  | .slt => a < b
  | .sgt => a > b
  | .sle => a ≤ b
  | .sge => a ≥ b

/-- Ordered float comparison semantics: any comparison with NaN is false. -/
def fcmpEval (p : FCmp) (a b : DFloat) : Bool :=
  match a, b with
  | .fin x, .fin y => match p with
    | .oeq => x = y
    | .one => x ≠ y
    | .olt => x < y
    | .ogt => x > y
    | .ole => x ≤ y
    | .oge => x ≥ y
  | _, _ => false

/-- Integer binary operation semantics.  `sdiv`/`srem` truncate toward zero as
LLVM's do; the division-by-zero case is unreachable behind the emitted
guards. -/
def ibinEval (op : IBin) (a b : Int) : Int :=
  match op with
  | .add => a + b
  | .sub => a - b
  | .mul => a * b
  | .sdiv => Int.tdiv a b
  | .srem => Int.tmod a b

/-- Truncate a rational toward zero. -/
def ratTrunc (q : ℚ) : Int :=
  if 0 ≤ q then ⌊q⌋ else -⌊-q⌋

/-- Float binary operation semantics.  NaN propagates; division by zero is
collapsed to NaN (it is unreachable behind the emitted zero guards, which is
the only place the claims exercise `fdiv`). -/
def fbinEval (op : FBin) (a b : DFloat) : DFloat :=
  match a, b with
  | .fin x, .fin y =>
    match op with
    | .fadd => .fin (x + y)
    | .fsub => .fin (x - y)
    | .fmul => .fin (x * y)
    | .fdiv => if y = 0 then .nan else .fin (x / y)
    | .frem => if y = 0 then .nan else .fin (x - y * (ratTrunc (x / y) : ℚ))
  | _, _ => .nan

/-- Truth of a value, as a `condBr` sees it. -/
def rvalTruthy (v : RVal) : Bool :=
  match v with
  | .int n => n ≠ 0
  | .dbl d => d ≠ .fin 0
  | .ptr p => p ≠ 0

/-- Set a register. -/
def RunSt.set (st : RunSt) (r : String) (v : RVal) : RunSt :=
  { st with env := (r, v) :: st.env }

/-- Execute one instruction.  Returns the new state, plus an exit code when
the instruction terminates the generated program. -/
def execInstr (ctx : RunCtx) (st : RunSt) : Instr → RunSt × Option Int
  | .evalExpr tag dst =>
    ({ st.set dst (ctx.oracle tag) with evals := st.evals ++ [tag] }, none)
  | .icmp p dst a b =>
    (st.set dst (.int (if icmpEval p (evalOp st a).asInt (evalOp st b).asInt then 1 else 0)), none)
  | .fcmp p dst a b =>
    (st.set dst (.int (if fcmpEval p (evalOp st a).asDbl (evalOp st b).asDbl then 1 else 0)), none)
  | .orI1 dst a b =>
    (st.set dst (.int (if (evalOp st a).asInt ≠ 0 ∨ (evalOp st b).asInt ≠ 0 then 1 else 0)), none)
  | .binInt op dst a b =>
    (st.set dst (.int (ibinEval op (evalOp st a).asInt (evalOp st b).asInt)), none)
  | .binFlt op dst a b =>
    (st.set dst (.dbl (fbinEval op (evalOp st a).asDbl (evalOp st b).asDbl)), none)
  | .sitofp dst a =>
    (st.set dst (.dbl (.fin ((evalOp st a).asInt : ℚ))), none)
  | .fptosi dst a =>
    (st.set dst (.int (match (evalOp st a).asDbl with
      | .fin q => ratTrunc q
      | .nan => 0)), none)
  | .zext dst a => (st.set dst (.int (evalOp st a).asInt), none)
  | .sext dst a => (st.set dst (.int (evalOp st a).asInt), none)
  | .truncTo w dst a =>
    (st.set dst (.int (((evalOp st a).asInt + 2 ^ (w - 1)) % 2 ^ w - 2 ^ (w - 1))), none)
  | .strlenOf dst a =>
    (st.set dst (.int (ctx.strLen (evalOp st a).asPtr)), none)
  | .loadElem dst idx =>
    let n := (evalOp st idx).asInt
    ({ st.set dst (.int (ctx.mem n)) with mems := st.mems ++ [n] }, none)
  | .loadVar dst v => (st.set dst (ctx.vars v), none)
  | .store v a => ({ st with stores := st.stores ++ [(v, evalOp st a)] }, none)
  | .storeElem idx a =>
    ({ st with memStores := st.memStores ++ [((evalOp st idx).asInt, evalOp st a)] }, none)
  | .printf fmt _ => ({ st with output := st.output ++ [fmt] }, none)
  | .callExit code => (st, some code)
  | .mallocCall dst _ =>
    ({ st.set dst (.ptr st.nextPtr) with nextPtr := st.nextPtr + 1 }, none)
  | .libCall _ _ => (st, none)
  | .phi dst incoming =>
    (st.set dst (evalOp st ((incoming.lookup st.prev).getD (.cInt 0))), none)

/-- Execute an instruction list, stopping at a program exit. -/
def execInstrs (ctx : RunCtx) : List Instr → RunSt → RunSt × Option Int
  | [], st => (st, none)
  | i :: is, st =>
    match execInstr ctx st i with
    | (st, none) => execInstrs ctx is st
    | (st, some code) => (st, some code)

/-- Result of running a fragment: `next st b` — the run fell through to the
fragment's final insert point `b` (execution continues with whatever code is
emitted after the fragment); `exited code st` — the generated program called
`exit`; `stuck st` — out of fuel or a malformed branch (never the case for the
fragments proved about below). -/
inductive Outcome
  | next (st : RunSt) (l : String)
  | exited (code : Int) (st : RunSt)
  | stuck (st : RunSt)
deriving DecidableEq, Repr

/-- Find a block by name. -/
def findBlock (f : Frag) (n : String) : Option Block :=
  f.blocks.find? (fun b => b.name = n)

/-- Run a fragment from block `bn` with the given fuel. -/
def runFrom (ctx : RunCtx) (f : Frag) : Nat → String → RunSt → Outcome
  | 0, _, st => .stuck st
  | fuel + 1, bn, st =>
    match findBlock f bn with
    | none => .stuck st
    | some b =>
      let st1 := { st with visited := st.visited ++ [bn] }
      match execInstrs ctx b.instrs st1 with
      | (st2, some code) => .exited code st2
      | (st2, none) =>
        match b.term with
        | .br t => runFrom ctx f fuel t { st2 with prev := bn }
        | .condBr c t e =>
          if rvalTruthy (evalOp st2 c) then runFrom ctx f fuel t { st2 with prev := bn }
          else runFrom ctx f fuel e { st2 with prev := bn }
        | .next => .next st2 bn
        | .unreachable => .stuck st2

/-- Run a fragment from its entry on the initial state. -/
def runFrag (ctx : RunCtx) (f : Frag) : Outcome :=
  runFrom ctx f 32 f.entry RunSt.init

/-- Final state of an outcome. -/
def Outcome.st : Outcome → RunSt
  | .next st _ => st
  | .exited _ st => st
  | .stuck st => st

/-- Printed output of an outcome. -/
def Outcome.out (o : Outcome) : List String := o.st.output

/-- Block name at which a fragment run fell through, when it did. -/
def Outcome.endsAt : Outcome → Option String
  | .next _ l => some l
  | _ => none

/-- Whether the run ended with the generated program calling `exit`. -/
def Outcome.didExit : Outcome → Bool
  | .exited _ _ => true
  | _ => false

/-- Read an operand in the final state of an outcome. -/
def Outcome.val (o : Outcome) (a : Operand) : RVal := evalOp o.st a

/-! ### Emission routines

Each definition below mirrors one emission routine of `CodeGenerator`
(`src/unnamed/part_001`), producing the fragment the C++ builder calls build.
The entry block is named `cur` (the builder's current block when the routine
starts).  A recursive `codegenExpr` call on a subtree is the instruction
`evalExpr tag reg`. -/

/-- Static LLVM types as the emission code inspects them
(`isIntegerTy(1)`, `isIntegerTy(8)`, `isDoubleTy`, `isPointerTy`). -/
inductive Ty
  | i1
  | i8
  | i32
  | f64
  | ptrT
  | voidT
deriving DecidableEq, Repr

/-- Zero value (`Constant::getNullValue`) of an element type. -/
def zeroOperand : Ty → Operand
  | .f64 => .cDbl (.fin 0)
  | .ptrT => .cPtr 0
  | _ => .cInt 0

/-- `CodeGenerator::createDivisionWithZeroCheck` (part_001 lines 3699-3770):
guarded division.  Blocks `div_error` / `div_compute` / `div_merge`; the
divisor is compared with zero; the error path prints `errorMsg` and yields 0
(integer) or NaN (float) into the `div_phi` merge phi; the compute path
performs `sdiv`/`fdiv`. -/
def createDivisionWithZeroCheck (left right : Operand) (errorMsg : String)
    (isIntegerDivision : Bool) : Frag × Operand :=
  if isIntegerDivision then
    ({ entry := "cur",
       blocks :=
         [ ⟨"cur", [.icmp .eq "is_zero" right (.cInt 0)],
             .condBr (.reg "is_zero") "div_error" "div_compute"⟩
         , ⟨"div_error", [.printf errorMsg []], .br "div_merge"⟩
         , ⟨"div_compute", [.binInt .sdiv "div_result" left right], .br "div_merge"⟩
         , ⟨"div_merge",
             [.phi "div_phi" [("div_error", .cInt 0), ("div_compute", .reg "div_result")]],
             .next⟩ ] },
     .reg "div_phi")
  else
    ({ entry := "cur",
       blocks :=
         [ ⟨"cur", [.fcmp .oeq "is_zero" right (.cDbl (.fin 0))],
             .condBr (.reg "is_zero") "div_error" "div_compute"⟩
         , ⟨"div_error", [.printf errorMsg []], .br "div_merge"⟩
         , ⟨"div_compute", [.binFlt .fdiv "div_result" left right], .br "div_merge"⟩
         , ⟨"div_merge",
             [.phi "div_phi" [("div_error", .cDbl .nan), ("div_compute", .reg "div_result")]],
             .next⟩ ] },
     .reg "div_phi")

/-- `CodeGenerator::createModuloWithZeroCheck` (part_001 lines 3772-3841):
guarded remainder, float variant when the right operand is a double. -/
def createModuloWithZeroCheck (rightTy : Ty) (left right : Operand)
    (errorMsg : String) : Frag × Operand :=
  if rightTy = .f64 then
    ({ entry := "cur",
       blocks :=
         [ ⟨"cur", [.fcmp .oeq "is_zero" right (.cDbl (.fin 0))],
             .condBr (.reg "is_zero") "mod_error" "mod_compute"⟩
         , ⟨"mod_error", [.printf errorMsg []], .br "mod_merge"⟩
         , ⟨"mod_compute", [.binFlt .frem "mod_result" left right], .br "mod_merge"⟩
         , ⟨"mod_merge",
             [.phi "mod_phi" [("mod_error", .cDbl .nan), ("mod_compute", .reg "mod_result")]],
             .next⟩ ] },
     .reg "mod_phi")
  else
    ({ entry := "cur",
       blocks :=
         [ ⟨"cur", [.icmp .eq "is_zero" right (.cInt 0)],
             .condBr (.reg "is_zero") "mod_error" "mod_compute"⟩
         , ⟨"mod_error", [.printf errorMsg []], .br "mod_merge"⟩
         , ⟨"mod_compute", [.binInt .srem "mod_result" left right], .br "mod_merge"⟩
         , ⟨"mod_merge",
             [.phi "mod_phi" [("mod_error", .cInt 0), ("mod_compute", .reg "mod_result")]],
             .next⟩ ] },
     .reg "mod_phi")

/-- Conversion of a value to `i1` as `codegenLogicalOp` emits it: nothing for
an `i1` value, an ordered-not-equal-0.0 compare for a double, a
not-equal-0 compare otherwise (part_001 lines 959-970 and parallels). -/
def toBoolCode (src : Operand) (ty : Ty) (dst : String) : List Instr × Operand :=
  match ty with
  | .i1 => ([], src)
  | .f64 => ([.fcmp .one dst src (.cDbl (.fin 0))], .reg dst)
  | _ => ([.icmp .ne dst src (.cInt 0)], .reg dst)

/-- `CodeGenerator::codegenLogicalOp` (part_001 lines 950-1075): short-circuit
`&&` / `||`.  The left operand is evaluated in the current block and converted
to `i1`; `&&` branches to `and_rhs` when the left is true and straight to
`and_merge` otherwise; `||` branches to `or_merge` when the left is true and
to `or_rhs` otherwise.  The right operand is evaluated only in the `rhs`
block; the merge phi takes the constant short-circuit value from the entry
block and the converted right value from the `rhs` block.  Any other operator
returns `none` (the C++ returns `nullptr`). -/
def codegenLogicalOp (op : String) (lty rty : Ty) (ltag rtag : Nat) :
    Option (Frag × Operand) :=
  let lc := toBoolCode (.reg "l") lty "tobool_l"
  let rc := toBoolCode (.reg "r") rty "tobool_r"
  if op = "&&" then
    some ({ entry := "cur",
            blocks :=
              [ ⟨"cur", [.evalExpr ltag "l"] ++ lc.1, .condBr lc.2 "and_rhs" "and_merge"⟩
              , ⟨"and_rhs", [.evalExpr rtag "r"] ++ rc.1, .br "and_merge"⟩
              , ⟨"and_merge", [.phi "and_result" [("cur", .cInt 0), ("and_rhs", rc.2)]],
                  .next⟩ ] },
      .reg "and_result")
  else if op = "||" then
    some ({ entry := "cur",
            blocks :=
              [ ⟨"cur", [.evalExpr ltag "l"] ++ lc.1, .condBr lc.2 "or_merge" "or_rhs"⟩
              , ⟨"or_rhs", [.evalExpr rtag "r"] ++ rc.1, .br "or_merge"⟩
              , ⟨"or_merge", [.phi "or_result" [("cur", .cInt 1), ("or_rhs", rc.2)]],
                  .next⟩ ] },
      .reg "or_result")
  else none

/-- The bool-to-int and char-to-int widenings `codegenBinaryOp` applies to
each operand (part_001 lines 807-825). -/
def promoteBoolChar (side : String) (a : Operand) (ty : Ty) :
    List Instr × Operand × Ty :=
  match ty with
  | .i1 => ([.zext ("bool_to_int_" ++ side) a], .reg ("bool_to_int_" ++ side), .i32)
  | .i8 => ([.sext ("char_to_int_" ++ side) a], .reg ("char_to_int_" ++ side), .i32)
  | _ => ([], a, ty)

/-- `CodeGenerator::codegenBinaryOp` (part_001 lines 792-947).  Logical
operators are delegated to `codegenLogicalOp` before the operands are
evaluated (line 798).  Otherwise both operands are evaluated, the
bool/char-to-int and int-to-double promotions are applied, and the operator is
dispatched: string concatenation for `+` on two pointers; `+ - *`; `/` with
both operands converted to double and the float zero guard; `//` with both
operands converted to int and the integer zero guard; `%` through the modulo
guard; the six comparisons.  An unknown operator yields `none` (C++ returns
`nullptr`). -/
def codegenBinaryOp (op : String) (ltyIn rtyIn : Ty) (ltag rtag : Nat) :
    Option (Frag × Operand) :=
  if op = "&&" ∨ op = "||" then codegenLogicalOp op ltyIn rtyIn ltag rtag
  else
    let evals : List Instr := [.evalExpr ltag "l", .evalExpr rtag "r"]
    let pL := promoteBoolChar "l" (.reg "l") ltyIn
    let pR := promoteBoolChar "r" (.reg "r") rtyIn
    let mix : List Instr × Operand × Operand × Ty × Ty :=
      if pL.2.2 = .f64 ∧ pR.2.2 = .i32 then
        ([Instr.sitofp "int_to_double_r" pR.2.1], pL.2.1, .reg "int_to_double_r", .f64, .f64)
      else if pR.2.2 = .f64 ∧ pL.2.2 = .i32 then
        ([Instr.sitofp "int_to_double_l" pL.2.1], .reg "int_to_double_l", pR.2.1, .f64, .f64)
      else ([], pL.2.1, pR.2.1, pL.2.2, pR.2.2)
    let pre := evals ++ pL.1 ++ pR.1 ++ mix.1
    let lop := mix.2.1
    let rop := mix.2.2.1
    let lty := mix.2.2.2.1
    let rty := mix.2.2.2.2
    if op = "+" ∧ lty = .ptrT ∧ rty = .ptrT then
      some (⟨"cur",
        [⟨"cur", pre ++
          [ .strlenOf "len1" lop
          , .strlenOf "len2" rop
          , .binInt .add "totallen" (.reg "len1") (.reg "len2")
          , .binInt .add "totallen_plus1" (.reg "totallen") (.cInt 1)
          , .mallocCall "newstr" (.reg "totallen_plus1")
          , .libCall "strcpy" [.reg "newstr", lop]
          , .libCall "strcat" [.reg "newstr", rop] ], .next⟩]⟩,
        .reg "newstr")
    else
    let isFloat := lty = .f64
    if op = "+" then
      some (⟨"cur", [⟨"cur", pre ++
        [if isFloat then Instr.binFlt .fadd "addtmp" lop rop
         else Instr.binInt .add "addtmp" lop rop], .next⟩]⟩, .reg "addtmp")
    else if op = "-" then
      some (⟨"cur", [⟨"cur", pre ++
        [if isFloat then Instr.binFlt .fsub "subtmp" lop rop
         else Instr.binInt .sub "subtmp" lop rop], .next⟩]⟩, .reg "subtmp")
    else if op = "*" then
      some (⟨"cur", [⟨"cur", pre ++
        [if isFloat then Instr.binFlt .fmul "multmp" lop rop
         else Instr.binInt .mul "multmp" lop rop], .next⟩]⟩, .reg "multmp")
    else if op = "/" then
      let cL : List Instr × Operand :=
        if lty ≠ .f64 then ([.sitofp "conv_left" lop], .reg "conv_left") else ([], lop)
      let cR : List Instr × Operand :=
        if rty ≠ .f64 then ([.sitofp "conv_right" rop], .reg "conv_right") else ([], rop)
      let g := createDivisionWithZeroCheck cL.2 cR.2 "Runtime Error: Division by zero\n" false
      some (g.1.prependEntry (pre ++ cL.1 ++ cR.1), g.2)
    else if op = "//" then
      let cL : List Instr × Operand :=
        if lty = .f64 then ([.fptosi "conv_left" lop], .reg "conv_left") else ([], lop)
      let cR : List Instr × Operand :=
        if rty = .f64 then ([.fptosi "conv_right" rop], .reg "conv_right") else ([], rop)
      let g := createDivisionWithZeroCheck cL.2 cR.2 "Runtime Error: Integer division by zero\n" true
      some (g.1.prependEntry (pre ++ cL.1 ++ cR.1), g.2)
    else if op = "%" then
      let g := createModuloWithZeroCheck rty lop rop "Runtime Error: Modulo by zero\n"
      some (g.1.prependEntry pre, g.2)
    else if op = "==" then
      some (⟨"cur", [⟨"cur", pre ++
        [if isFloat then Instr.fcmp .oeq "eqtmp" lop rop
         else Instr.icmp .eq "eqtmp" lop rop], .next⟩]⟩, .reg "eqtmp")
    else if op = "!=" then
      some (⟨"cur", [⟨"cur", pre ++
        [if isFloat then Instr.fcmp .one "netmp" lop rop
         else Instr.icmp .ne "netmp" lop rop], .next⟩]⟩, .reg "netmp")
    else if op = "<" then
      some (⟨"cur", [⟨"cur", pre ++
        [if isFloat then Instr.fcmp .olt "lttmp" lop rop
         else Instr.icmp .slt "lttmp" lop rop], .next⟩]⟩, .reg "lttmp")
    else if op = ">" then
      some (⟨"cur", [⟨"cur", pre ++
        [if isFloat then Instr.fcmp .ogt "gttmp" lop rop
         else Instr.icmp .sgt "gttmp" lop rop], .next⟩]⟩, .reg "gttmp")
    else if op = "<=" then
      some (⟨"cur", [⟨"cur", pre ++
        [if isFloat then Instr.fcmp .ole "letmp" lop rop
         else Instr.icmp .sle "letmp" lop rop], .next⟩]⟩, .reg "letmp")
    else if op = ">=" then
      some (⟨"cur", [⟨"cur", pre ++
        [if isFloat then Instr.fcmp .oge "getmp" lop rop
         else Instr.icmp .sge "getmp" lop rop], .next⟩]⟩, .reg "getmp")
    else none

/-- The run-time bounds check of `CodeGenerator::codegenArrayAccess`
(part_001 lines 1790-1894).  After the index subtree is evaluated, control
branches to `bounds_check`: the index is compared with 0
(`is_negative`); only when the accessed variable is string-typed an
additional `strlen`-based upper-bound compare is emitted and or-ed in
(lines 1811-1839) — for every other array the branch condition is the
negativity test alone.  The error path prints the diagnostic and feeds the
element type's zero value into the `bounds_merge` phi; the access path
performs the GEP-plus-load (`loadElem`). -/
def codegenArrayAccessGuard (isStringType : Bool) (elemTy : Ty)
    (arrayPtr : Operand) (indexTag : Nat) : Frag × Operand :=
  let checkInstrs : List Instr :=
    [.icmp .slt "is_negative" (.reg "idx") (.cInt 0)] ++
    (if isStringType then
      [ .strlenOf "strlen" arrayPtr
      , .truncTo 32 "len32" (.reg "strlen")
      , .icmp .sge "is_overflow" (.reg "idx") (.reg "len32")
      , .orI1 "is_out_of_bounds" (.reg "is_negative") (.reg "is_overflow") ]
     else [])
  let cond : Operand := if isStringType then .reg "is_out_of_bounds" else .reg "is_negative"
  ({ entry := "cur",
     blocks :=
       [ ⟨"cur", [.evalExpr indexTag "idx"], .br "bounds_check"⟩
       , ⟨"bounds_check", checkInstrs, .condBr cond "bounds_error" "array_access"⟩
       , ⟨"bounds_error", [.printf "Runtime Error: Array index out of bounds\n" []],
           .br "bounds_merge"⟩
       , ⟨"array_access", [.loadElem "arrayval" (.reg "idx")], .br "bounds_merge"⟩
       , ⟨"bounds_merge",
           [.phi "array_result"
             [("bounds_error", zeroOperand elemTy), ("array_access", .reg "arrayval")]],
           .next⟩ ] },
   .reg "array_result")

/-- The local-variable branch of `CodeGenerator::codegenAssignment`
(part_001 lines 2845-3070): the value subtree is evaluated, the old value is
loaded for a compound operator, the compound operation is applied and the
result stored back.  `/=` and `%=` guard a zero divisor with an error /
compute / merge diamond yielding NaN (float) or 0 (int) on the error path
(lines 2873-2946 and 2993-3067); `//=` converts both sides to int and on a
zero divisor prints the diagnostic, calls `exit(1)` and marks the error block
unreachable — there is no merge and the store is only on the compute path
(lines 2947-2992).  `isFloat` is `oldVal->getType()->isDoubleTy()`; the claims
are instantiated with the value operand of the same type, so the
`convertToType` call of line 2861 is the identity and is omitted. -/
def codegenAssignCompoundLocal (op : String) (varName : String) (isFloat : Bool)
    (valTag : Nat) : Frag :=
  let pre : List Instr := [.evalExpr valTag "value", .loadVar "oldval" varName]
  if op = "=" then
    ⟨"cur", [⟨"cur", [.evalExpr valTag "value", .store varName (.reg "value")], .next⟩]⟩
  else if op = "+=" then
    ⟨"cur", [⟨"cur", pre ++
      [if isFloat then Instr.binFlt .fadd "addassign" (.reg "oldval") (.reg "value")
       else Instr.binInt .add "addassign" (.reg "oldval") (.reg "value"),
       .store varName (.reg "addassign")], .next⟩]⟩
  else if op = "-=" then
    ⟨"cur", [⟨"cur", pre ++
      [if isFloat then Instr.binFlt .fsub "subassign" (.reg "oldval") (.reg "value")
       else Instr.binInt .sub "subassign" (.reg "oldval") (.reg "value"),
       .store varName (.reg "subassign")], .next⟩]⟩
  else if op = "*=" then
    ⟨"cur", [⟨"cur", pre ++
      [if isFloat then Instr.binFlt .fmul "mulassign" (.reg "oldval") (.reg "value")
       else Instr.binInt .mul "mulassign" (.reg "oldval") (.reg "value"),
       .store varName (.reg "mulassign")], .next⟩]⟩
  else if op = "/=" then
    if isFloat then
      ⟨"cur",
        [ ⟨"cur", pre ++ [.fcmp .oeq "iszero" (.reg "value") (.cDbl (.fin 0))],
            .condBr (.reg "iszero") "divassign_error" "divassign_compute"⟩
        , ⟨"divassign_error",
            [.printf "Runtime Error: Division by zero in /= operator\n" []],
            .br "divassign_merge"⟩
        , ⟨"divassign_compute",
            [.binFlt .fdiv "divassign" (.reg "oldval") (.reg "value")],
            .br "divassign_merge"⟩
        , ⟨"divassign_merge",
            [.phi "divassign_result"
               [("divassign_error", .cDbl .nan), ("divassign_compute", .reg "divassign")],
             .store varName (.reg "divassign_result")], .next⟩ ]⟩
    else
      ⟨"cur",
        [ ⟨"cur", pre ++ [.icmp .eq "iszero" (.reg "value") (.cInt 0)],
            .condBr (.reg "iszero") "divassign_error" "divassign_compute"⟩
        , ⟨"divassign_error",
            [.printf "Runtime Error: Division by zero in /= operator\n" []],
            .br "divassign_merge"⟩
        , ⟨"divassign_compute",
            [.binInt .sdiv "divassign" (.reg "oldval") (.reg "value")],
            .br "divassign_merge"⟩
        , ⟨"divassign_merge",
            [.phi "divassign_result"
               [("divassign_error", .cInt 0), ("divassign_compute", .reg "divassign")],
             .store varName (.reg "divassign_result")], .next⟩ ]⟩
  else if op = "//=" then
    let conv : List Instr :=
      if isFloat then
        [.fptosi "floordiv_left" (.reg "oldval"), .fptosi "floordiv_right" (.reg "value")]
      else []
    let lInt : Operand := if isFloat then .reg "floordiv_left" else .reg "oldval"
    let rInt : Operand := if isFloat then .reg "floordiv_right" else .reg "value"
    ⟨"cur",
      [ ⟨"cur", pre ++ conv ++ [.icmp .eq "iszero" rInt (.cInt 0)],
          .condBr (.reg "iszero") "floordivassign_error" "floordivassign_compute"⟩
      , ⟨"floordivassign_error",
          [.printf "Runtime Error: Integer division by zero in //= operator\n" [],
           .callExit 1], .unreachable⟩
      , ⟨"floordivassign_compute",
          [.binInt .sdiv "floordivassign" lInt rInt,
           .store varName (.reg "floordivassign")], .next⟩ ]⟩
  else if op = "%=" then
    if isFloat then
      ⟨"cur",
        [ ⟨"cur", pre ++ [.fcmp .oeq "iszero" (.reg "value") (.cDbl (.fin 0))],
            .condBr (.reg "iszero") "modassign_error" "modassign_compute"⟩
        , ⟨"modassign_error",
            [.printf "Runtime Error: Modulo by zero in %= operator\n" []],
            .br "modassign_merge"⟩
        , ⟨"modassign_compute",
            [.binFlt .frem "modassign" (.reg "oldval") (.reg "value")],
            .br "modassign_merge"⟩
        , ⟨"modassign_merge",
            [.phi "modassign_result"
               [("modassign_error", .cDbl .nan), ("modassign_compute", .reg "modassign")],
             .store varName (.reg "modassign_result")], .next⟩ ]⟩
    else
      ⟨"cur",
        [ ⟨"cur", pre ++ [.icmp .eq "iszero" (.reg "value") (.cInt 0)],
            .condBr (.reg "iszero") "modassign_error" "modassign_compute"⟩
        , ⟨"modassign_error",
            [.printf "Runtime Error: Modulo by zero in %= operator\n" []],
            .br "modassign_merge"⟩
        , ⟨"modassign_compute",
            [.binInt .srem "modassign" (.reg "oldval") (.reg "value")],
            .br "modassign_merge"⟩
        , ⟨"modassign_merge",
            [.phi "modassign_result"
               [("modassign_error", .cInt 0), ("modassign_compute", .reg "modassign")],
             .store varName (.reg "modassign_result")], .next⟩ ]⟩
  else
    ⟨"cur", [⟨"cur", pre ++ [.store varName (.reg "value")], .next⟩]⟩

/-- The array-element branch of `CodeGenerator::codegenAssignment`
(part_001 lines 2443-2576): for a target `arr[idx]` the index subtree (line
2446) and the value subtree (line 2496) are evaluated and the element pointer
is built by GEP (lines 2502-2517, collapsed into `loadElem`/`storeElem`
addressing as in the access guard).  A compound operator loads the current
element (line 2522) and applies the operation (lines 2531-2567): `+= -= *=`
as raw add/sub/mul, and — unlike the variable branch — `/=` (2543-2546),
`//=` (2547-2562) and `%=` (2563-2566) as the raw `fdiv`/`sdiv`/`srem`
with no zero check of any kind: no compare, no diagnostic, no safe default,
no exit.  The result is stored back to the element (line 2575).  `isFloat`
is the loaded element's `isDoubleTy`; the `convertToType` calls of lines
2526-2528 are identities here (matching operand types), and the line
2570-2572 reconversion of the `//=` integer result back to a double element
is the trailing `sitofp`. -/
def codegenAssignCompoundArrayElem (op : String) (isFloat : Bool)
    (valTag idxTag : Nat) : Frag :=
  let pre : List Instr := [.evalExpr idxTag "idx", .evalExpr valTag "value"]
  if op = "=" then
    ⟨"cur", [⟨"cur", pre ++ [.storeElem (.reg "idx") (.reg "value")], .next⟩]⟩
  else
    let preC := pre ++ [Instr.loadElem "oldval" (.reg "idx")]
    if op = "+=" then
      ⟨"cur", [⟨"cur", preC ++
        [if isFloat then Instr.binFlt .fadd "addassign" (.reg "oldval") (.reg "value")
         else Instr.binInt .add "addassign" (.reg "oldval") (.reg "value"),
         .storeElem (.reg "idx") (.reg "addassign")], .next⟩]⟩
    else if op = "-=" then
      ⟨"cur", [⟨"cur", preC ++
        [if isFloat then Instr.binFlt .fsub "subassign" (.reg "oldval") (.reg "value")
         else Instr.binInt .sub "subassign" (.reg "oldval") (.reg "value"),
         .storeElem (.reg "idx") (.reg "subassign")], .next⟩]⟩
    else if op = "*=" then
      ⟨"cur", [⟨"cur", preC ++
        [if isFloat then Instr.binFlt .fmul "mulassign" (.reg "oldval") (.reg "value")
         else Instr.binInt .mul "mulassign" (.reg "oldval") (.reg "value"),
         .storeElem (.reg "idx") (.reg "mulassign")], .next⟩]⟩
    else if op = "/=" then
      ⟨"cur", [⟨"cur", preC ++
        [if isFloat then Instr.binFlt .fdiv "divassign" (.reg "oldval") (.reg "value")
         else Instr.binInt .sdiv "divassign" (.reg "oldval") (.reg "value"),
         .storeElem (.reg "idx") (.reg "divassign")], .next⟩]⟩
    else if op = "//=" then
      let conv : List Instr :=
        if isFloat then
          [.fptosi "floordiv_left" (.reg "oldval"), .fptosi "floordiv_right" (.reg "value")]
        else []
      let lInt : Operand := if isFloat then .reg "floordiv_left" else .reg "oldval"
      let rInt : Operand := if isFloat then .reg "floordiv_right" else .reg "value"
      let back : List Instr × Operand :=
        if isFloat then
          ([.sitofp "conv_elem" (.reg "floordivassign")], .reg "conv_elem")
        else ([], .reg "floordivassign")
      ⟨"cur", [⟨"cur", preC ++ conv ++
        [Instr.binInt .sdiv "floordivassign" lInt rInt] ++ back.1 ++
        [Instr.storeElem (.reg "idx") back.2], .next⟩]⟩
    else if op = "%=" then
      ⟨"cur", [⟨"cur", preC ++
        [if isFloat then Instr.binFlt .frem "modassign" (.reg "oldval") (.reg "value")
         else Instr.binInt .srem "modassign" (.reg "oldval") (.reg "value"),
         .storeElem (.reg "idx") (.reg "modassign")], .next⟩]⟩
    else
      ⟨"cur", [⟨"cur", preC ++ [.storeElem (.reg "idx") (.reg "value")], .next⟩]⟩

/-- Instructions a divide-by-zero guard is made of: a compare feeding the
branch, a printed diagnostic, or a program exit. -/
def isGuardInstr : Instr → Bool
  | .icmp _ _ _ _ => true
  | .fcmp _ _ _ _ => true
  | .printf _ _ => true
  | .callExit _ => true
  | _ => false

/-- A fragment that carries no guard whatsoever: one single fall-through
block (no conditional branch, no merge point) containing no compare, no
diagnostic `printf` and no `exit` call. -/
def unguardedStraightLine (f : Frag) : Bool :=
  match f.blocks with
  | [b] => b.name == f.entry && b.term == .next && b.instrs.all (fun i => !isGuardInstr i)
  | _ => false

/-- The zero-argument branch of the `print` builtin in
`CodeGenerator::codegenFunctionCall` (part_001 lines 1163-1172): when
`node->arguments` is empty it emits a `printf` call on the constant string
consisting of one newline character. -/
def codegenPrintNoArgs : Frag :=
  ⟨"cur", [⟨"cur", [.printf "\n" []], .next⟩]⟩

/-! ### Compiler-side state

The remaining routines act on `CodeGenerator`'s own mutable state rather than
on emitted control flow: the temporary-memory LIFO and owned-string map, the
module registry, the loop-context stack, the error/warning counters.  Each
C++ member function becomes a Lean function on an explicit state record.
`std::map` becomes an association list with insert-or-assign update (`updMap`)
and lookup; pointers (`llvm::Value*`, `llvm::Function*`,
`llvm::GlobalVariable*`) become `Nat` identities. -/

/-- Insert-or-assign on an association list, the `map[k] = v` of `std::map`. -/
def updMap {α : Type} (m : List (String × α)) (k : String) (v : α) :
    List (String × α) :=
  (k, v) :: m.filter (fun kv => kv.1 ≠ k)

/-- Erase a key, the `map.erase(it)` of `std::map`. -/
def eraseKey {α : Type} (m : List (String × α)) (k : String) :
    List (String × α) :=
  m.filter (fun kv => kv.1 ≠ k)

/-- State of the resource tracker: the temporary-memory LIFO
(`tempMemoryStack`, `push_back` at the end), the variable-owned allocations
(`ownedStringMemory`), and the `free` calls emitted so far, in order
(`freed`). -/
structure MemSt where
  tempMemoryStack : List Nat
  ownedStringMemory : List (String × Nat)
  freed : List Nat
deriving DecidableEq, Repr

/-- `CodeGenerator::pushTempMemory` (part_001 lines 150-154). -/
def pushTempMemory (p : Nat) (st : MemSt) : MemSt :=
  { st with tempMemoryStack := st.tempMemoryStack ++ [p] }

/-- `CodeGenerator::removeTempMemory` (part_001 lines 156-164): erase the
first occurrence of the pointer from the LIFO (ownership transferred). -/
def removeTempMemory (p : Nat) (st : MemSt) : MemSt :=
  { st with tempMemoryStack := st.tempMemoryStack.erase p }

/-- `CodeGenerator::clearTempMemory` (part_001 lines 166-187): emit a `free`
for every tracked temporary in reverse order and empty the LIFO. -/
def clearTempMemory (st : MemSt) : MemSt :=
  { st with freed := st.freed ++ st.tempMemoryStack.reverse, tempMemoryStack := [] }

/-- `CodeGenerator::freeOwnedString` (part_001 lines 200-218): if the variable
owns an allocation, emit a `free` for it and drop the ownership record. -/
def freeOwnedString (v : String) (st : MemSt) : MemSt :=
  match st.ownedStringMemory.lookup v with
  | none => st
  | some p =>
    { st with freed := st.freed ++ [p],
              ownedStringMemory := eraseKey st.ownedStringMemory v }

/-- `CodeGenerator::trackOwnedString` (part_001 lines 189-198): first free the
allocation the variable previously owned, then record the new one. -/
def trackOwnedString (v : String) (p : Nat) (st : MemSt) : MemSt :=
  let st := freeOwnedString v st
  { st with ownedStringMemory := updMap st.ownedStringMemory v p }

/-- The ownership tail of the local-variable branch of
`CodeGenerator::codegenAssignment` (part_001 lines 3072-3085), run after the
store: when the assigned value is a pointer found on the temporary LIFO,
ownership transfers — it is removed from the LIFO and recorded via
`trackOwnedString` (which first frees the old owned allocation); then
`clearTempMemory` releases the remaining temporaries of the statement. -/
def assignOwnershipTransfer (varName : String) (isPointer : Bool) (p : Nat)
    (st : MemSt) : MemSt :=
  let st :=
    if isPointer ∧ p ∈ st.tempMemoryStack then
      trackOwnedString varName p (removeTempMemory p st)
    else st
  clearTempMemory st

/-- A top-level declaration of a parsed module, as `loadModule` dispatches on
it (part_001 lines 338-368: only function declarations and variable
declarations are processed; anything else is skipped). -/
inductive TopDecl
  | funcDecl (name : String)
  | varDecl (name : String)
  | otherStmt
deriving DecidableEq, Repr

/-- The `CodeGenerator` bookkeeping state the module/function/call claims
depend on.  `llvmFuncs` is the LLVM module's function symbol table (what
`module->getFunction` consults); `functions` and `globalValues` are the
compilation unit's own symbol tables; `moduleFunctions` / `moduleGlobals` are
the per-module namespaces; `loweredBodies` records one entry per function
body actually lowered, in order. -/
structure CG where
  llvmFuncs : List (String × Nat)
  functions : List (String × Nat)
  globalValues : List (String × Nat)
  moduleFunctions : List (String × List (String × Nat))
  moduleGlobals : List (String × List (String × Nat))
  moduleAliases : List (String × String)
  loadedModules : List String
  loweredBodies : List String
  consoleErrors : List String
  nextId : Nat
deriving DecidableEq, Repr

/-- The empty generator state. -/
def CG.init : CG :=
  { llvmFuncs := [], functions := [], globalValues := [], moduleFunctions := []
    moduleGlobals := [], moduleAliases := [], loadedModules := []
    loweredBodies := [], consoleErrors := [], nextId := 0 }

/-- The declaration bookkeeping of `CodeGenerator::codegenFunctionDecl`
(part_001 lines 3379-3462): if the LLVM module already has a function of this
name, an "already defined" error is printed and nothing is lowered
(lines 3386-3391); otherwise the function is created in the LLVM module under
its plain name (lines 3412-3413), its body lowered, and it is recorded in
the unit's `functions` table (line 3461). -/
def codegenFunctionDeclM (name : String) (cg : CG) : CG :=
  if (cg.llvmFuncs.lookup name).isSome then
    { cg with consoleErrors := cg.consoleErrors ++
        ["Error: Function " ++ name ++ " is already defined"] }
  else
    let f := cg.nextId
    { cg with
      nextId := f + 1
      llvmFuncs := updMap cg.llvmFuncs name f
      loweredBodies := cg.loweredBodies ++ [name]
      functions := updMap cg.functions name f }

/-- The module-scope branch of `CodeGenerator::codegenVarDecl`
(part_001 lines 2152-2158 and the global-variable creation that follows): a
redefinition is an error; otherwise the global is created and recorded in the
unit's `globalValues` table under its plain name. -/
def codegenVarDeclGlobalM (name : String) (cg : CG) : CG :=
  if (cg.globalValues.lookup name).isSome then
    { cg with consoleErrors := cg.consoleErrors ++
        ["Error: Global variable " ++ name ++ " is already defined"] }
  else
    let g := cg.nextId
    { cg with nextId := g + 1, globalValues := updMap cg.globalValues name g }

/-- Lines 333-336 of `loadModule`: create the module's namespace maps if not
present. -/
def ensureModuleNamespace (moduleName : String) (cg : CG) : CG :=
  if (cg.moduleFunctions.lookup moduleName).isSome then cg
  else
    { cg with
      moduleFunctions := updMap cg.moduleFunctions moduleName []
      moduleGlobals := updMap cg.moduleGlobals moduleName [] }

/-- The per-declaration loop of `CodeGenerator::loadModule`
(part_001 lines 338-368): each function declaration is lowered through
`codegenFunctionDecl` and then whatever `module->getFunction` now returns
under that name is registered in the module's namespace; each variable
declaration is lowered through `codegenVarDecl` and the entry found in
`globalValues` is registered in the module's namespace; other statements are
skipped. -/
def loadModuleDecl (moduleName : String) (cg : CG) : TopDecl → CG
  | .funcDecl n =>
    let cg := codegenFunctionDeclM n cg
    match cg.llvmFuncs.lookup n with
    | some f =>
      let tbl := updMap ((cg.moduleFunctions.lookup moduleName).getD []) n f
      { cg with moduleFunctions := updMap cg.moduleFunctions moduleName tbl }
    | none => cg
  | .varDecl n =>
    let cg := codegenVarDeclGlobalM n cg
    match cg.globalValues.lookup n with
    | some g =>
      let tbl := updMap ((cg.moduleGlobals.lookup moduleName).getD []) n g
      { cg with moduleGlobals := updMap cg.moduleGlobals moduleName tbl }
    | none => cg
  | .otherStmt => cg

/-- The whole declaration loop, in statement order. -/
def loadModuleDecls (moduleName : String) : List TopDecl → CG → CG
  | [], cg => cg
  | d :: rest, cg => loadModuleDecls moduleName rest (loadModuleDecl moduleName cg d)

/-- `CodeGenerator::loadModule` (part_001 lines 275-379).  `parse` stands for
the file search plus `yyparse` of lines 289-325: `none` means the module file
was not found or failed to parse.  A module already in the loaded-set returns
`true` immediately with no state change (lines 281-287); otherwise the parsed
top-level declarations are lowered and registered and the module is added to
the loaded-set (line 371). -/
def loadModule (parse : String → Option (List TopDecl)) (moduleName : String)
    (cg : CG) : Bool × CG :=
  if moduleName ∈ cg.loadedModules then (true, cg)
  else
    match parse moduleName with
    | none =>
      (false, { cg with consoleErrors := cg.consoleErrors ++
          ["Error: Module " ++ moduleName ++ " not found or failed to parse"] })
    | some decls =>
      let cg := ensureModuleNamespace moduleName cg
      let cg := loadModuleDecls moduleName decls cg
      (true, { cg with loadedModules := cg.loadedModules ++ [moduleName] })

/-- `CodeGenerator::codegenImport` (part_001 lines 412-444): load the module;
on success record the alias (the explicit one, or the module's own name when
no alias was given). -/
def codegenImport (parse : String → Option (List TopDecl)) (moduleName : String)
    (aliasName : Option String) (cg : CG) : CG :=
  match loadModule parse moduleName cg with
  | (false, cg) =>
    { cg with consoleErrors := cg.consoleErrors ++
        ["Error: Failed to import module: " ++ moduleName] }
  | (true, cg) =>
    match aliasName with
    | some a => { cg with moduleAliases := updMap cg.moduleAliases a moduleName }
    | none =>
      { cg with moduleAliases := updMap cg.moduleAliases moduleName moduleName }

/-- `CodeGenerator::findModuleFunction` (part_001 lines 382-394). -/
def findModuleFunction (cg : CG) (moduleName funcName : String) : Option Nat :=
  match cg.moduleFunctions.lookup moduleName with
  | none => none
  | some tbl => tbl.lookup funcName

/-- How `CodeGenerator::codegenFunctionCall` resolves a callee. -/
inductive CallRes
  | moduleCall (f : Nat)
  | moduleUnknown
  | builtinPrint
  | builtinOther (which : String)
  | userCall (f : Nat)
  | unknownFunction
deriving DecidableEq, Repr

/-- The callee-resolution spine of `CodeGenerator::codegenFunctionCall`
(part_001 lines 1100-1529).  A call with a receiver identifier resolves the
receiver through the alias map (falling back to the name itself) and then
looks the function up in that module's namespace (lines 1107-1155).  An
unqualified call is matched against the builtins handled inline (`print` —
including the zero-argument newline form — `input`, `len`, `to_int`,
`to_double`, `to_string`, `free`), and otherwise resolved through
`module->getFunction` on the LLVM module's own symbol table (line 1524),
yielding the unknown-function error when absent. -/
def codegenFunctionCallResolve (cg : CG) (receiver : Option String)
    (name : String) : CallRes :=
  match receiver with
  | some obj =>
    let moduleName := (cg.moduleAliases.lookup obj).getD obj
    match findModuleFunction cg moduleName name with
    | some f => .moduleCall f
    | none => .moduleUnknown
  | none =>
    if name = "print" then .builtinPrint
    else if name = "input" ∨ name = "len" ∨ name = "to_int" ∨ name = "to_double"
        ∨ name = "to_string" ∨ name = "free" then .builtinOther name
    else
      match cg.llvmFuncs.lookup name with
      | some f => .userCall f
      | none => .unknownFunction

/-- A parse oracle standing for a module source file that declares one
function `secret` and one global variable `gv` (whatever name it is resolved
under). -/
def moduleParseExample : String → Option (List TopDecl) :=
  fun _ => some [.funcDecl "secret", .varDecl "gv"]

/-- A loop/switch context: the `continue` and `break` target blocks
(codegen.h lines 74-77).  A switch context carries a null `continue` target,
modelled by the empty string. -/
structure LoopCtx where
  continueBlock : String
  breakBlock : String
deriving DecidableEq, Repr

/-- Statement-lowering state for break/continue: the loop-context stack (top
is the head), the member error counter of part_001, the global error counter
of error.cc (`g_errorCount`, the one `hasErrors`/`generate` consults), the
raw `std::cerr` messages, the resource tracker, and the unconditional
branches emitted, in order. -/
structure StmtSt where
  loopContextStack : List LoopCtx
  errorCount : Nat
  gErrorCount : Nat
  consoleErrors : List String
  mem : MemSt
  branches : List String
deriving DecidableEq, Repr

/-- `CodeGenerator::codegenBreakStmt` (part_001 lines 4343-4366): with an
empty loop-context stack the error text is written to `std::cerr` and the
routine returns — neither error counter is touched and no branch is emitted.
Otherwise the temporaries are cleared and an unconditional branch to the top
context's break block is emitted (the builder then moves to a fresh
unreachable block). -/
def codegenBreakStmtM (st : StmtSt) : StmtSt :=
  match st.loopContextStack.head? with
  | none =>
    { st with consoleErrors := st.consoleErrors ++
        ["Error: break statement not in loop or switch"] }
  | some ctx =>
    let st := { st with mem := clearTempMemory st.mem }
    { st with branches := st.branches ++ [ctx.breakBlock] }

/-- `CodeGenerator::codegenContinueStmt` (part_001 lines 4368-4392): same
shape as break, branching to the top context's continue block. -/
def codegenContinueStmtM (st : StmtSt) : StmtSt :=
  match st.loopContextStack.head? with
  | none =>
    { st with consoleErrors := st.consoleErrors ++
        ["Error: continue statement not in loop"] }
  | some ctx =>
    let st := { st with mem := clearTempMemory st.mem }
    { st with branches := st.branches ++ [ctx.continueBlock] }

/-- The emission gate of `CodeGenerator::generate` (part_001 lines 3950-3958
with `hasErrors` of codegen.h line 185): IR is only emitted when the global
error count is zero. -/
def generateGateOpen (gErrorCount : Nat) : Bool :=
  decide (gErrorCount = 0)

/-- Run context for a binary expression: oracle tag 0 is the left subtree's
run-time value, tag 1 the right subtree's; variables, raw memory and string
lengths are unused by these fragments. -/
def binCtx (l r : RVal) : RunCtx :=
  { oracle := fun t => if t = 0 then l else r
    vars := fun _ => .int 0
    mem := fun _ => 0
    strLen := fun _ => 0 }

/-- Run context for an assignment fragment: the assigned variable holds
`old`, the value subtree evaluates to `v`. -/
def assignCtx (old v : RVal) : RunCtx :=
  { oracle := fun _ => v
    vars := fun _ => old
    mem := fun _ => 0
    strLen := fun _ => 0 }

/-- Run context for an array access: oracle tag 0 is the index subtree's
value; `mem` is the raw element memory the generated `load` reads; pointer 7
is the accessed string, of dynamic length `len`. -/
def arrCtx (idx : Int) (mem : Int → Int) (len : Int) : RunCtx :=
  { oracle := fun _ => .int idx
    vars := fun _ => .int 0
    mem := mem
    strLen := fun _ => len }

/-- A context with nothing in it, for fragments that read no input. -/
def unitCtx : RunCtx :=
  { oracle := fun _ => .int 0
    vars := fun _ => .int 0
    mem := fun _ => 0
    strLen := fun _ => 0 }

/-- The run-time value of a type's zero (`Constant::getNullValue`). -/
def zeroVal : Ty → RVal
  | .f64 => .dbl (.fin 0)
  | .ptrT => .ptr 0
  | _ => .int 0

/-- Run the fragment emitted by `codegenBinaryOp` for operand subtrees tagged
0 and 1, together with its result operand.  The fallback (for an operator the
C++ rejects with `nullptr`) is an empty stuck run; the theorems additionally
assert `Option.isSome` so the fallback is never what they speak about. -/
def runBinOp (op : String) (lty rty : Ty) (ctx : RunCtx) : Outcome × Operand :=
  match codegenBinaryOp op lty rty 0 1 with
  | some x => (runFrag ctx x.1, x.2)
  | none => (.stuck RunSt.init, .cInt 0)

/-- What the end of a function body emits. -/
inductive RetKind
  | retVoid
  | retZero
deriving DecidableEq, Repr

/-- Result of the fall-off-the-end tail of `codegenFunctionDecl`. -/
structure FnTailRes where
  mem : MemSt
  warningCount : Nat
  warnings : List String
  ret : Option RetKind
deriving DecidableEq, Repr

/-- The end-of-body tail of `CodeGenerator::codegenFunctionDecl`
(part_001 lines 3446-3457): when the current block has no terminator after
the body is lowered, the outstanding temporaries are cleared and either
`ret void` (void return type) or `ret` of the type's null value is emitted.
This path writes no diagnostic: `warningCount` is unchanged and no warning
text is produced on either branch. -/
def codegenFunctionDeclTail (hasTerminator : Bool) (retTyIsVoid : Bool)
    (mem : MemSt) (warningCount : Nat) : FnTailRes :=
  if hasTerminator then
    { mem := mem, warningCount := warningCount, warnings := [], ret := none }
  else
    let mem := clearTempMemory mem
    if retTyIsVoid then
      { mem := mem, warningCount := warningCount, warnings := [], ret := some .retVoid }
    else
      { mem := mem, warningCount := warningCount, warnings := [], ret := some .retZero }

/-! ### Theorems -/

/-- C3: for a lowered `a // b`, when `b` evaluates to 0 at run time the
generated code prints the integer-division diagnostic and the expression's
value is the integer 0; for `a / b`, when `b` evaluates to 0.0 the generated
code prints the division diagnostic and the value is NaN.  In both cases the
run does not exit and falls through at the `div_merge` merge block. -/
theorem divideByZero_yields_default_and_diagnostic (a : Int) (x : DFloat) :
    (codegenBinaryOp "//" .i32 .i32 0 1).isSome = true ∧
    (codegenBinaryOp "/" .f64 .f64 0 1).isSome = true ∧
    ((runBinOp "//" .i32 .i32 (binCtx (.int a) (.int 0))).1.out =
        ["Runtime Error: Integer division by zero\n"] ∧
      (runBinOp "//" .i32 .i32 (binCtx (.int a) (.int 0))).1.val
        (runBinOp "//" .i32 .i32 (binCtx (.int a) (.int 0))).2 = .int 0 ∧
      (runBinOp "//" .i32 .i32 (binCtx (.int a) (.int 0))).1.endsAt = some "div_merge" ∧
      (runBinOp "//" .i32 .i32 (binCtx (.int a) (.int 0))).1.didExit = false) ∧
    ((runBinOp "/" .f64 .f64 (binCtx (.dbl x) (.dbl (.fin 0)))).1.out =
        ["Runtime Error: Division by zero\n"] ∧
      (runBinOp "/" .f64 .f64 (binCtx (.dbl x) (.dbl (.fin 0)))).1.val
        (runBinOp "/" .f64 .f64 (binCtx (.dbl x) (.dbl (.fin 0)))).2 = .dbl .nan ∧
      (runBinOp "/" .f64 .f64 (binCtx (.dbl x) (.dbl (.fin 0)))).1.endsAt =
        some "div_merge" ∧
      (runBinOp "/" .f64 .f64 (binCtx (.dbl x) (.dbl (.fin 0)))).1.didExit = false) :=
  ⟨rfl, rfl, ⟨rfl, rfl, rfl, rfl⟩, ⟨rfl, rfl, rfl, rfl⟩⟩

/-- C10: an unqualified call of `print` is dispatched to the builtin `print`
branch (never the unknown-function error, whatever the generator state), and
with zero arguments the emitted code is a `printf` of the one-character
string consisting of a newline, so running it outputs exactly that newline
and nothing else. -/
theorem print_no_args_emits_newline (cg : CG) :
    codegenFunctionCallResolve cg none "print" = .builtinPrint ∧
    (runFrag unitCtx codegenPrintNoArgs).out = ["\n"] ∧
    (runFrag unitCtx codegenPrintNoArgs).didExit = false :=
  ⟨rfl, rfl, rfl⟩

/-- C2 counterexample: a compound assignment `x //= v` (integer local
variable) whose divisor evaluates to 0 does not produce a safe default and
continue — the generated code prints the diagnostic and then calls `exit(1)`:
the run ends in `exited`, and no store to `x` ever executes. -/
theorem compound_floordiv_zero_exits :
    (runFrag (assignCtx (.int 7) (.int 0)) (codegenAssignCompoundLocal "//=" "x" false 0)).didExit
        = true ∧
    (runFrag (assignCtx (.int 7) (.int 0)) (codegenAssignCompoundLocal "//=" "x" false 0)).out
        = ["Runtime Error: Integer division by zero in //= operator\n"] ∧
    (runFrag (assignCtx (.int 7) (.int 0)) (codegenAssignCompoundLocal "//=" "x" false 0)).st.stores
        = [] :=
  ⟨rfl, rfl, rfl⟩

/-- C2 amended: on a plain variable target, compound `/=` and `%=` reuse the
plain-operator divide-by-zero policy — on a zero divisor they print a
diagnostic, store the safe default (0 for integer, NaN for float) and fall
through at a merge block so execution continues — while compound `//=` does
not: it prints its diagnostic and terminates the generated program via
`exit(1)`, with no merge and no store.  On an array-element target, none of
`/=`, `//=`, `%=` is guarded at all: the emitted code is one straight-line
block performing the raw division/remainder, with no compare, no diagnostic,
no safe default and no exit, so running it with a zero divisor prints nothing
and emits no exit. -/
theorem compound_assign_divide_guards (vI : Int) (vD : DFloat) :
    ((runFrag (assignCtx (.int vI) (.int 0)) (codegenAssignCompoundLocal "/=" "x" false 0)).out
        = ["Runtime Error: Division by zero in /= operator\n"] ∧
      (runFrag (assignCtx (.int vI) (.int 0)) (codegenAssignCompoundLocal "/=" "x" false 0)).st.stores
        = [("x", .int 0)] ∧
      (runFrag (assignCtx (.int vI) (.int 0)) (codegenAssignCompoundLocal "/=" "x" false 0)).endsAt
        = some "divassign_merge" ∧
      (runFrag (assignCtx (.int vI) (.int 0)) (codegenAssignCompoundLocal "/=" "x" false 0)).didExit
        = false) ∧
    ((runFrag (assignCtx (.dbl vD) (.dbl (.fin 0))) (codegenAssignCompoundLocal "/=" "x" true 0)).out
        = ["Runtime Error: Division by zero in /= operator\n"] ∧
      (runFrag (assignCtx (.dbl vD) (.dbl (.fin 0))) (codegenAssignCompoundLocal "/=" "x" true 0)).st.stores
        = [("x", .dbl .nan)] ∧
      (runFrag (assignCtx (.dbl vD) (.dbl (.fin 0))) (codegenAssignCompoundLocal "/=" "x" true 0)).endsAt
        = some "divassign_merge" ∧
      (runFrag (assignCtx (.dbl vD) (.dbl (.fin 0))) (codegenAssignCompoundLocal "/=" "x" true 0)).didExit
        = false) ∧
    ((runFrag (assignCtx (.int vI) (.int 0)) (codegenAssignCompoundLocal "%=" "x" false 0)).out
        = ["Runtime Error: Modulo by zero in %= operator\n"] ∧
      (runFrag (assignCtx (.int vI) (.int 0)) (codegenAssignCompoundLocal "%=" "x" false 0)).st.stores
        = [("x", .int 0)] ∧
      (runFrag (assignCtx (.int vI) (.int 0)) (codegenAssignCompoundLocal "%=" "x" false 0)).endsAt
        = some "modassign_merge" ∧
      (runFrag (assignCtx (.int vI) (.int 0)) (codegenAssignCompoundLocal "%=" "x" false 0)).didExit
        = false) ∧
    ((runFrag (assignCtx (.dbl vD) (.dbl (.fin 0))) (codegenAssignCompoundLocal "%=" "x" true 0)).out
        = ["Runtime Error: Modulo by zero in %= operator\n"] ∧
      (runFrag (assignCtx (.dbl vD) (.dbl (.fin 0))) (codegenAssignCompoundLocal "%=" "x" true 0)).st.stores
        = [("x", .dbl .nan)] ∧
      (runFrag (assignCtx (.dbl vD) (.dbl (.fin 0))) (codegenAssignCompoundLocal "%=" "x" true 0)).endsAt
        = some "modassign_merge" ∧
      (runFrag (assignCtx (.dbl vD) (.dbl (.fin 0))) (codegenAssignCompoundLocal "%=" "x" true 0)).didExit
        = false) ∧
    ((runFrag (assignCtx (.int vI) (.int 0)) (codegenAssignCompoundLocal "//=" "x" false 0)).out
        = ["Runtime Error: Integer division by zero in //= operator\n"] ∧
      (runFrag (assignCtx (.int vI) (.int 0)) (codegenAssignCompoundLocal "//=" "x" false 0)).didExit
        = true ∧
      (runFrag (assignCtx (.int vI) (.int 0)) (codegenAssignCompoundLocal "//=" "x" false 0)).st.stores
        = []) ∧
    (unguardedStraightLine (codegenAssignCompoundArrayElem "/=" false 0 1) = true ∧
      (codegenAssignCompoundArrayElem "/=" false 0 1).blocks.all
          (fun b => b.instrs.contains
            (Instr.binInt .sdiv "divassign" (.reg "oldval") (.reg "value"))) = true ∧
      (runFrag (binCtx (.int 0) (.int 2)) (codegenAssignCompoundArrayElem "/=" false 0 1)).out
        = [] ∧
      (runFrag (binCtx (.int 0) (.int 2)) (codegenAssignCompoundArrayElem "/=" false 0 1)).didExit
        = false) ∧
    (unguardedStraightLine (codegenAssignCompoundArrayElem "/=" true 0 1) = true ∧
      (codegenAssignCompoundArrayElem "/=" true 0 1).blocks.all
          (fun b => b.instrs.contains
            (Instr.binFlt .fdiv "divassign" (.reg "oldval") (.reg "value"))) = true ∧
      (runFrag (binCtx (.dbl (.fin 0)) (.int 2)) (codegenAssignCompoundArrayElem "/=" true 0 1)).out
        = [] ∧
      (runFrag (binCtx (.dbl (.fin 0)) (.int 2)) (codegenAssignCompoundArrayElem "/=" true 0 1)).didExit
        = false) ∧
    (unguardedStraightLine (codegenAssignCompoundArrayElem "//=" false 0 1) = true ∧
      (codegenAssignCompoundArrayElem "//=" false 0 1).blocks.all
          (fun b => b.instrs.contains
            (Instr.binInt .sdiv "floordivassign" (.reg "oldval") (.reg "value"))) = true ∧
      (runFrag (binCtx (.int 0) (.int 2)) (codegenAssignCompoundArrayElem "//=" false 0 1)).out
        = [] ∧
      (runFrag (binCtx (.int 0) (.int 2)) (codegenAssignCompoundArrayElem "//=" false 0 1)).didExit
        = false) ∧
    (unguardedStraightLine (codegenAssignCompoundArrayElem "//=" true 0 1) = true ∧
      (codegenAssignCompoundArrayElem "//=" true 0 1).blocks.all
          (fun b => b.instrs.contains
            (Instr.binInt .sdiv "floordivassign" (.reg "floordiv_left")
              (.reg "floordiv_right"))) = true ∧
      (runFrag (binCtx (.dbl (.fin 0)) (.int 2)) (codegenAssignCompoundArrayElem "//=" true 0 1)).out
        = [] ∧
      (runFrag (binCtx (.dbl (.fin 0)) (.int 2)) (codegenAssignCompoundArrayElem "//=" true 0 1)).didExit
        = false) ∧
    (unguardedStraightLine (codegenAssignCompoundArrayElem "%=" false 0 1) = true ∧
      (codegenAssignCompoundArrayElem "%=" false 0 1).blocks.all
          (fun b => b.instrs.contains
            (Instr.binInt .srem "modassign" (.reg "oldval") (.reg "value"))) = true ∧
      (runFrag (binCtx (.int 0) (.int 2)) (codegenAssignCompoundArrayElem "%=" false 0 1)).out
        = [] ∧
      (runFrag (binCtx (.int 0) (.int 2)) (codegenAssignCompoundArrayElem "%=" false 0 1)).didExit
        = false) ∧
    (unguardedStraightLine (codegenAssignCompoundArrayElem "%=" true 0 1) = true ∧
      (codegenAssignCompoundArrayElem "%=" true 0 1).blocks.all
          (fun b => b.instrs.contains
            (Instr.binFlt .frem "modassign" (.reg "oldval") (.reg "value"))) = true ∧
      (runFrag (binCtx (.dbl (.fin 0)) (.int 2)) (codegenAssignCompoundArrayElem "%=" true 0 1)).out
        = [] ∧
      (runFrag (binCtx (.dbl (.fin 0)) (.int 2)) (codegenAssignCompoundArrayElem "%=" true 0 1)).didExit
        = false) :=
  ⟨⟨rfl, rfl, rfl, rfl⟩, ⟨rfl, rfl, rfl, rfl⟩, ⟨rfl, rfl, rfl, rfl⟩,
    ⟨rfl, rfl, rfl, rfl⟩, ⟨rfl, rfl, rfl⟩, ⟨rfl, rfl, rfl, rfl⟩,
    ⟨rfl, rfl, rfl, rfl⟩, ⟨rfl, rfl, rfl, rfl⟩, ⟨rfl, rfl, rfl, rfl⟩,
    ⟨rfl, rfl, rfl, rfl⟩, ⟨rfl, rfl, rfl, rfl⟩⟩

/-- C1 counterexample: lowering the access `arr[5]` for `arr : int[5]` (an
integer array, not string-backed) emits a guard that does not divert an index
`≥ length` — running the emitted code with index 5 and element memory holding
42 at offset 5 prints no diagnostic, touches memory at offset 5, and yields
the loaded 42 rather than the type's zero value. -/
theorem int_array_upper_bound_not_guarded :
    (runFrag (arrCtx 5 (fun i => if i = 5 then 42 else 0) 5)
        (codegenArrayAccessGuard false .i32 (.cPtr 7) 0).1).out = [] ∧
    (runFrag (arrCtx 5 (fun i => if i = 5 then 42 else 0) 5)
        (codegenArrayAccessGuard false .i32 (.cPtr 7) 0).1).st.mems = [5] ∧
    (runFrag (arrCtx 5 (fun i => if i = 5 then 42 else 0) 5)
          (codegenArrayAccessGuard false .i32 (.cPtr 7) 0).1).val
        (codegenArrayAccessGuard false .i32 (.cPtr 7) 0).2 = .int 42 ∧
    (runFrag (arrCtx 5 (fun i => if i = 5 then 42 else 0) 5)
        (codegenArrayAccessGuard false .i32 (.cPtr 7) 0).1).endsAt = some "bounds_merge" :=
  ⟨rfl, rfl, rfl, rfl⟩

set_option maxRecDepth 16000 in
/-- C1 amended: the emitted array-access guard diverts a negative index — for
every element type, string-backed or not — to an error path that prints the
diagnostic and yields the element type's zero value without touching memory,
converging with the access path at the `bounds_merge` merge block; for
string-backed storage an index at or above the dynamic length is diverted the
same way; but for non-string arrays every nonnegative index, in bounds or
not, proceeds to the memory access. -/
theorem array_bounds_guard_semantics (elemTy : Ty) (isStr : Bool)
    (idxNeg idxBig : Int) (mem : Int → Int) (len : Int)
    (hneg : idxNeg < 0) (h0 : 0 ≤ idxBig) (hlen : len ≤ idxBig)
    (h0l : 0 ≤ len) (hw : len < 2147483648) :
    ((runFrag (arrCtx idxNeg mem len) (codegenArrayAccessGuard isStr elemTy (.cPtr 7) 0).1).out
        = ["Runtime Error: Array index out of bounds\n"] ∧
      (runFrag (arrCtx idxNeg mem len) (codegenArrayAccessGuard isStr elemTy (.cPtr 7) 0).1).val
          (codegenArrayAccessGuard isStr elemTy (.cPtr 7) 0).2 = zeroVal elemTy ∧
      (runFrag (arrCtx idxNeg mem len) (codegenArrayAccessGuard isStr elemTy (.cPtr 7) 0).1).st.mems
        = [] ∧
      (runFrag (arrCtx idxNeg mem len) (codegenArrayAccessGuard isStr elemTy (.cPtr 7) 0).1).endsAt
        = some "bounds_merge") ∧
    ((runFrag (arrCtx idxBig mem len) (codegenArrayAccessGuard true .i8 (.cPtr 7) 0).1).out
        = ["Runtime Error: Array index out of bounds\n"] ∧
      (runFrag (arrCtx idxBig mem len) (codegenArrayAccessGuard true .i8 (.cPtr 7) 0).1).val
          (codegenArrayAccessGuard true .i8 (.cPtr 7) 0).2 = zeroVal .i8 ∧
      (runFrag (arrCtx idxBig mem len) (codegenArrayAccessGuard true .i8 (.cPtr 7) 0).1).st.mems
        = [] ∧
      (runFrag (arrCtx idxBig mem len) (codegenArrayAccessGuard true .i8 (.cPtr 7) 0).1).endsAt
        = some "bounds_merge") ∧
    ((runFrag (arrCtx idxBig mem len) (codegenArrayAccessGuard false elemTy (.cPtr 7) 0).1).out
        = [] ∧
      (runFrag (arrCtx idxBig mem len) (codegenArrayAccessGuard false elemTy (.cPtr 7) 0).1).st.mems
        = [idxBig] ∧
      (runFrag (arrCtx idxBig mem len) (codegenArrayAccessGuard false elemTy (.cPtr 7) 0).1).val
          (codegenArrayAccessGuard false elemTy (.cPtr 7) 0).2 = .int (mem idxBig)) := by
  have hnn : ¬ idxBig < 0 := not_lt.mpr h0
  have hov : (len + 2147483648) % 4294967296 - 2147483648 ≤ idxBig := by omega
  refine ⟨?_, ?_, ?_⟩
  · cases isStr <;> cases elemTy <;>
      simp [runFrag, runFrom, findBlock, execInstrs, execInstr, evalOp, RunSt.read,
        RunSt.set, codegenArrayAccessGuard, arrCtx, RunSt.init, icmpEval, rvalTruthy,
        RVal.asInt, RVal.asDbl, RVal.asPtr, Outcome.out, Outcome.st, Outcome.val,
        Outcome.endsAt, hneg, zeroOperand, zeroVal, List.find?, List.lookup]
  · simp [runFrag, runFrom, findBlock, execInstrs, execInstr, evalOp, RunSt.read,
      RunSt.set, codegenArrayAccessGuard, arrCtx, RunSt.init, icmpEval, rvalTruthy,
      RVal.asInt, RVal.asDbl, RVal.asPtr, Outcome.out, Outcome.st, Outcome.val,
      Outcome.endsAt, hnn, ge_iff_le, hov, zeroOperand, zeroVal, List.find?, List.lookup]
  · simp [runFrag, runFrom, findBlock, execInstrs, execInstr, evalOp, RunSt.read,
      RunSt.set, codegenArrayAccessGuard, arrCtx, RunSt.init, icmpEval, rvalTruthy,
      RVal.asInt, RVal.asDbl, RVal.asPtr, Outcome.out, Outcome.st, Outcome.val,
      Outcome.endsAt, hnn, zeroOperand, zeroVal, List.find?, List.lookup]

/-- Witness for the amended C1 theorem at element type `f64`, negative index
-2, in-range-exceeding index 4 against length 4. -/
theorem array_bounds_guard_semantics_witness :
    ((-2 : Int) < 0 ∧ (0 : Int) ≤ 4 ∧ (4 : Int) ≤ 4 ∧ (0 : Int) ≤ 4 ∧
      (4 : Int) < 2147483648) ∧
    (((runFrag (arrCtx (-2) (fun _ => 9) 4) (codegenArrayAccessGuard false .f64 (.cPtr 7) 0).1).out
        = ["Runtime Error: Array index out of bounds\n"] ∧
      (runFrag (arrCtx (-2) (fun _ => 9) 4) (codegenArrayAccessGuard false .f64 (.cPtr 7) 0).1).val
          (codegenArrayAccessGuard false .f64 (.cPtr 7) 0).2 = zeroVal .f64 ∧
      (runFrag (arrCtx (-2) (fun _ => 9) 4) (codegenArrayAccessGuard false .f64 (.cPtr 7) 0).1).st.mems
        = [] ∧
      (runFrag (arrCtx (-2) (fun _ => 9) 4) (codegenArrayAccessGuard false .f64 (.cPtr 7) 0).1).endsAt
        = some "bounds_merge") ∧
    ((runFrag (arrCtx 4 (fun _ => 9) 4) (codegenArrayAccessGuard true .i8 (.cPtr 7) 0).1).out
        = ["Runtime Error: Array index out of bounds\n"] ∧
      (runFrag (arrCtx 4 (fun _ => 9) 4) (codegenArrayAccessGuard true .i8 (.cPtr 7) 0).1).val
          (codegenArrayAccessGuard true .i8 (.cPtr 7) 0).2 = zeroVal .i8 ∧
      (runFrag (arrCtx 4 (fun _ => 9) 4) (codegenArrayAccessGuard true .i8 (.cPtr 7) 0).1).st.mems
        = [] ∧
      (runFrag (arrCtx 4 (fun _ => 9) 4) (codegenArrayAccessGuard true .i8 (.cPtr 7) 0).1).endsAt
        = some "bounds_merge") ∧
    ((runFrag (arrCtx 4 (fun _ => 9) 4) (codegenArrayAccessGuard false .f64 (.cPtr 7) 0).1).out
        = [] ∧
      (runFrag (arrCtx 4 (fun _ => 9) 4) (codegenArrayAccessGuard false .f64 (.cPtr 7) 0).1).st.mems
        = [4] ∧
      (runFrag (arrCtx 4 (fun _ => 9) 4) (codegenArrayAccessGuard false .f64 (.cPtr 7) 0).1).val
          (codegenArrayAccessGuard false .f64 (.cPtr 7) 0).2 = .int 9)) :=
  ⟨⟨by decide, by decide, by decide, by decide, by decide⟩,
    array_bounds_guard_semantics .f64 false (-2) 4 (fun _ => 9) 4
      (by decide) (by decide) (by decide) (by decide) (by decide)⟩

set_option maxRecDepth 16000 in
/-- C8: lowering `&&` / `||` evaluates the left operand exactly once in the
entry block; the right operand's evaluation happens only in the `rhs` block,
which is visited exactly when the left value does not decide the result
(truthy left for `&&`, falsy left for `||`); both paths converge at the merge
block, whose phi yields the short-circuit constant on the direct path and the
converted right value otherwise.  On the short-circuit path the right operand
is never evaluated. -/
theorem logical_ops_short_circuit (lv rv : Int) :
    (codegenBinaryOp "&&" .i32 .i32 0 1).isSome = true ∧
    (codegenBinaryOp "||" .i32 .i32 0 1).isSome = true ∧
    ((runBinOp "&&" .i32 .i32 (binCtx (.int lv) (.int rv))).1.st.evals
        = if lv = 0 then [0] else [0, 1]) ∧
    ((runBinOp "&&" .i32 .i32 (binCtx (.int lv) (.int rv))).1.st.visited
        = if lv = 0 then ["cur", "and_merge"] else ["cur", "and_rhs", "and_merge"]) ∧
    ((runBinOp "&&" .i32 .i32 (binCtx (.int lv) (.int rv))).1.val
          (runBinOp "&&" .i32 .i32 (binCtx (.int lv) (.int rv))).2
        = .int (if lv = 0 then 0 else if rv = 0 then 0 else 1)) ∧
    ((runBinOp "&&" .i32 .i32 (binCtx (.int lv) (.int rv))).1.endsAt
        = some "and_merge") ∧
    ((runBinOp "||" .i32 .i32 (binCtx (.int lv) (.int rv))).1.st.evals
        = if lv = 0 then [0, 1] else [0]) ∧
    ((runBinOp "||" .i32 .i32 (binCtx (.int lv) (.int rv))).1.st.visited
        = if lv = 0 then ["cur", "or_rhs", "or_merge"] else ["cur", "or_merge"]) ∧
    ((runBinOp "||" .i32 .i32 (binCtx (.int lv) (.int rv))).1.val
          (runBinOp "||" .i32 .i32 (binCtx (.int lv) (.int rv))).2
        = .int (if lv = 0 then (if rv = 0 then 0 else 1) else 1)) ∧
    ((runBinOp "||" .i32 .i32 (binCtx (.int lv) (.int rv))).1.endsAt
        = some "or_merge") := by
  rcases eq_or_ne lv 0 with h | h
  · subst h
    simp [runBinOp, codegenBinaryOp, codegenLogicalOp, toBoolCode, promoteBoolChar,
      Frag.prependEntry, runFrag, runFrom, findBlock, execInstrs, execInstr, evalOp,
      RunSt.read, RunSt.set, binCtx, RunSt.init, icmpEval, rvalTruthy, RVal.asInt,
      Outcome.out, Outcome.st, Outcome.val, Outcome.endsAt, List.find?, List.lookup]
  · simp [runBinOp, codegenBinaryOp, codegenLogicalOp, toBoolCode, promoteBoolChar,
      Frag.prependEntry, runFrag, runFrom, findBlock, execInstrs, execInstr, evalOp,
      RunSt.read, RunSt.set, binCtx, RunSt.init, icmpEval, rvalTruthy, RVal.asInt,
      Outcome.out, Outcome.st, Outcome.val, Outcome.endsAt, List.find?, List.lookup, h]

/-- Removing the entries stored under one key leaves lookups of other keys
unchanged. -/
theorem lookup_filterKey_ne {α : Type} (mp : List (String × α)) (k k2 : String)
    (h : k2 ≠ k) :
    (mp.filter (fun kv => kv.1 ≠ k)).lookup k2 = mp.lookup k2 := by
  induction mp with
  | nil => rfl
  | cons kv t ih =>
    simp only [ne_eq, decide_not] at ih ⊢
    rcases kv with ⟨k0, v0⟩
    by_cases hk : k0 = k
    · have h2 : (k2 == k) = false := beq_eq_false_iff_ne.mpr h
      simp [List.filter_cons, List.lookup, hk, h2, ih]
    · by_cases h4 : k2 = k0
      · simp [List.filter_cons, List.lookup, hk, h4]
      · have h5 : (k2 == k0) = false := beq_eq_false_iff_ne.mpr h4
        simp [List.filter_cons, List.lookup, hk, h5, ih]

/-- Lookup after the insert-or-assign `updMap`. -/
theorem lookup_updMap {α : Type} (mp : List (String × α)) (k k2 : String) (v : α) :
    (updMap mp k v).lookup k2 = if k2 = k then some v else mp.lookup k2 := by
  by_cases h : k2 = k
  · subst h
    simp [updMap, List.lookup]
  · have hne : (k2 == k) = false := beq_eq_false_iff_ne.mpr h
    have h6 := lookup_filterKey_ne mp k k2 h
    simp only [ne_eq, decide_not] at h6
    simp [updMap, List.lookup, hne, h, h6]

/-- Lookup at the inserted key. -/
theorem lookup_updMap_self {α : Type} (mp : List (String × α)) (k : String) (v : α) :
    (updMap mp k v).lookup k = some v := by
  simp [lookup_updMap]

/-- The function-declaration bookkeeping touches neither the loaded-module
set nor the alias map. -/
theorem codegenFunctionDeclM_stable (n : String) (cg : CG) :
    (codegenFunctionDeclM n cg).loadedModules = cg.loadedModules ∧
    (codegenFunctionDeclM n cg).moduleAliases = cg.moduleAliases := by
  unfold codegenFunctionDeclM
  split <;> exact ⟨rfl, rfl⟩

/-- The global-declaration bookkeeping touches neither the loaded-module set
nor the alias map. -/
theorem codegenVarDeclGlobalM_stable (n : String) (cg : CG) :
    (codegenVarDeclGlobalM n cg).loadedModules = cg.loadedModules ∧
    (codegenVarDeclGlobalM n cg).moduleAliases = cg.moduleAliases := by
  unfold codegenVarDeclGlobalM
  split <;> exact ⟨rfl, rfl⟩

/-- One step of the declaration loop touches neither the loaded-module set
nor the alias map. -/
theorem loadModuleDecl_stable (m : String) (cg : CG) (d : TopDecl) :
    (loadModuleDecl m cg d).loadedModules = cg.loadedModules ∧
    (loadModuleDecl m cg d).moduleAliases = cg.moduleAliases := by
  cases d with
  | funcDecl n =>
    rcases h : (codegenFunctionDeclM n cg).llvmFuncs.lookup n with _ | f <;>
      simp [loadModuleDecl, h, codegenFunctionDeclM_stable]
  | varDecl n =>
    rcases h : (codegenVarDeclGlobalM n cg).globalValues.lookup n with _ | g <;>
      simp [loadModuleDecl, h, codegenVarDeclGlobalM_stable]
  | otherStmt => exact ⟨rfl, rfl⟩

/-- The declaration loop touches neither the loaded-module set nor the alias
map. -/
theorem loadModuleDecls_stable (m : String) (decls : List TopDecl) (cg : CG) :
    (loadModuleDecls m decls cg).loadedModules = cg.loadedModules ∧
    (loadModuleDecls m decls cg).moduleAliases = cg.moduleAliases := by
  induction decls generalizing cg with
  | nil => exact ⟨rfl, rfl⟩
  | cons d rest ih =>
    refine ⟨?_, ?_⟩ <;>
      simp [loadModuleDecls, (ih (loadModuleDecl m cg d)).1, (ih (loadModuleDecl m cg d)).2,
        (loadModuleDecl_stable m cg d).1, (loadModuleDecl_stable m cg d).2]

/-- Namespace creation touches neither the loaded-module set nor the alias
map. -/
theorem ensureModuleNamespace_stable (m : String) (cg : CG) :
    (ensureModuleNamespace m cg).loadedModules = cg.loadedModules ∧
    (ensureModuleNamespace m cg).moduleAliases = cg.moduleAliases := by
  unfold ensureModuleNamespace
  split <;> exact ⟨rfl, rfl⟩

/-- After an import whose module source parses, the module is in the
loaded-set. -/
theorem import_loaded (parse : String → Option (List TopDecl)) (m al : String)
    (cg : CG) (decls : List TopDecl) (hparse : parse m = some decls) :
    m ∈ (codegenImport parse m (some al) cg).loadedModules := by
  by_cases hm : m ∈ cg.loadedModules <;>
    simp [codegenImport, loadModule, hm, hparse]

/-- After an import whose module source parses, the requested alias maps to
the module's canonical name. -/
theorem import_alias_registered (parse : String → Option (List TopDecl))
    (m al : String) (cg : CG) (decls : List TopDecl)
    (hparse : parse m = some decls) :
    (codegenImport parse m (some al) cg).moduleAliases.lookup al = some m := by
  by_cases hm : m ∈ cg.loadedModules <;>
    simp [codegenImport, loadModule, hm, hparse, lookup_updMap]

/-- C9: in the assignment tail, when variable `v` owns `pOld` and is assigned
the fresh temporary `pNew` (on the LIFO once, distinct from `pOld`, with
`pOld` itself no longer on the LIFO — it was removed when `v` first took it),
the emitted cleanup frees `pOld` exactly once more, never frees the
transferred `pNew`, records `v` as owner of `pNew`, and leaves the LIFO
empty. -/
theorem string_reassignment_releases_old_exactly_once (v : String)
    (pOld pNew : Nat) (st : MemSt)
    (hOwned : st.ownedStringMemory.lookup v = some pOld)
    (hNew : st.tempMemoryStack.count pNew = 1)
    (hOldNotTemp : pOld ∉ st.tempMemoryStack)
    (hne : pNew ≠ pOld) :
    ((assignOwnershipTransfer v true pNew st).freed.count pOld
        = st.freed.count pOld + 1) ∧
    ((assignOwnershipTransfer v true pNew st).freed.count pNew
        = st.freed.count pNew) ∧
    ((assignOwnershipTransfer v true pNew st).ownedStringMemory.lookup v
        = some pNew) ∧
    (assignOwnershipTransfer v true pNew st).tempMemoryStack = [] := by
  have hmem : pNew ∈ st.tempMemoryStack := List.count_pos_iff.mp (by omega)
  have hnoOld : pOld ∉ st.tempMemoryStack.erase pNew :=
    fun hc => hOldNotTemp (List.mem_of_mem_erase hc)
  refine ⟨?_, ?_, ?_, ?_⟩ <;>
    simp [assignOwnershipTransfer, hmem, trackOwnedString, removeTempMemory,
      freeOwnedString, hOwned, clearTempMemory, List.count_append,
      List.count_reverse, lookup_updMap_self, List.count_erase_self, hNew, hne,
      List.count_eq_zero_of_not_mem hnoOld, eraseKey]

/-- Witness for the C9 theorem: variable `s` owns allocation 42 and is
assigned the fresh temporary 55. -/
theorem string_reassignment_releases_old_exactly_once_witness :
    ((MemSt.mk [55] [("s", 42)] []).ownedStringMemory.lookup "s" = some 42 ∧
      (MemSt.mk [55] [("s", 42)] []).tempMemoryStack.count 55 = 1 ∧
      (42 : Nat) ∉ (MemSt.mk [55] [("s", 42)] []).tempMemoryStack ∧
      (55 : Nat) ≠ 42) ∧
    ((assignOwnershipTransfer "s" true 55 (MemSt.mk [55] [("s", 42)] [])).freed.count 42
        = (MemSt.mk [55] [("s", 42)] []).freed.count 42 + 1 ∧
      (assignOwnershipTransfer "s" true 55 (MemSt.mk [55] [("s", 42)] [])).freed.count 55
        = (MemSt.mk [55] [("s", 42)] []).freed.count 55 ∧
      (assignOwnershipTransfer "s" true 55 (MemSt.mk [55] [("s", 42)] [])).ownedStringMemory.lookup "s"
        = some 55 ∧
      (assignOwnershipTransfer "s" true 55 (MemSt.mk [55] [("s", 42)] [])).tempMemoryStack
        = []) :=
  ⟨⟨by decide, by decide, by decide, by decide⟩,
    string_reassignment_releases_old_exactly_once "s" 42 55
      (MemSt.mk [55] [("s", 42)] []) (by decide) (by decide) (by decide) (by decide)⟩

/-- C4: the end-of-body tail of `codegenFunctionDecl`, when the body left no
terminator, emits the declared return type's default zero return (or a plain
void return) but issues no warning: the warning counter is unchanged and no
warning text is produced on either branch. -/
theorem falloff_end_returns_default_without_warning (mem : MemSt) (w : Nat) :
    (codegenFunctionDeclTail false false mem w).ret = some .retZero ∧
    (codegenFunctionDeclTail false false mem w).warnings = [] ∧
    (codegenFunctionDeclTail false false mem w).warningCount = w ∧
    (codegenFunctionDeclTail false true mem w).ret = some .retVoid ∧
    (codegenFunctionDeclTail false true mem w).warnings = [] ∧
    (codegenFunctionDeclTail false true mem w).warningCount = w :=
  ⟨rfl, rfl, rfl, rfl, rfl, rfl⟩

/-- C7 counterexample: a `break` (or `continue`) lowered with an empty
loop/switch context stack prints its error text but increments neither the
member error counter nor the global one `generate` consults — so the
emission gate stays open, the error is reported but never counted. -/
theorem break_outside_context_not_counted :
    (codegenBreakStmtM (StmtSt.mk [] 0 0 [] (MemSt.mk [] [] []) [])).errorCount = 0 ∧
    (codegenBreakStmtM (StmtSt.mk [] 0 0 [] (MemSt.mk [] [] []) [])).gErrorCount = 0 ∧
    generateGateOpen
        (codegenBreakStmtM (StmtSt.mk [] 0 0 [] (MemSt.mk [] [] []) [])).gErrorCount
      = true ∧
    (codegenBreakStmtM (StmtSt.mk [] 0 0 [] (MemSt.mk [] [] []) [])).consoleErrors
      = ["Error: break statement not in loop or switch"] ∧
    (codegenBreakStmtM (StmtSt.mk [] 0 0 [] (MemSt.mk [] [] []) [])).branches = [] ∧
    (codegenContinueStmtM (StmtSt.mk [] 0 0 [] (MemSt.mk [] [] []) [])).errorCount = 0 ∧
    (codegenContinueStmtM (StmtSt.mk [] 0 0 [] (MemSt.mk [] [] []) [])).gErrorCount = 0 :=
  ⟨rfl, rfl, rfl, rfl, rfl, rfl, rfl⟩

/-- C7 amended: with a non-empty loop/switch context stack, `break` and
`continue` emit a branch to the top context's break/continue block and report
nothing; with an empty stack the error text is printed and lowering of the
statement is abandoned (no branch) — but neither error counter changes, so
the error-count emission gate is unaffected by the misuse. -/
theorem break_continue_stack_semantics (st : StmtSt) :
    (match st.loopContextStack.head? with
      | some ctx =>
          (codegenBreakStmtM st).branches = st.branches ++ [ctx.breakBlock] ∧
          (codegenBreakStmtM st).consoleErrors = st.consoleErrors ∧
          (codegenContinueStmtM st).branches = st.branches ++ [ctx.continueBlock] ∧
          (codegenContinueStmtM st).consoleErrors = st.consoleErrors
      | none =>
          (codegenBreakStmtM st).branches = st.branches ∧
          (codegenBreakStmtM st).consoleErrors
            = st.consoleErrors ++ ["Error: break statement not in loop or switch"] ∧
          (codegenContinueStmtM st).branches = st.branches ∧
          (codegenContinueStmtM st).consoleErrors
            = st.consoleErrors ++ ["Error: continue statement not in loop"]) ∧
    (codegenBreakStmtM st).errorCount = st.errorCount ∧
    (codegenBreakStmtM st).gErrorCount = st.gErrorCount ∧
    (codegenContinueStmtM st).errorCount = st.errorCount ∧
    (codegenContinueStmtM st).gErrorCount = st.gErrorCount ∧
    generateGateOpen (codegenBreakStmtM st).gErrorCount
      = generateGateOpen st.gErrorCount := by
  rcases st with ⟨stk, e, g, errs, mem, brs⟩
  cases stk <;>
    simp [codegenBreakStmtM, codegenContinueStmtM, clearTempMemory, generateGateOpen]

/-- C5 counterexample: importing a module (here through the parse oracle
`moduleParseExample`, with no alias) makes its function `secret` resolvable
by a plain unqualified call in the importer, and its global `gv` lands in the
importer's own global table — the declarations are not confined to the
module's namespace. -/
theorem imported_module_names_resolve_unqualified :
    codegenFunctionCallResolve (codegenImport moduleParseExample "m" none CG.init)
        none "secret" = .userCall 0 ∧
    (codegenImport moduleParseExample "m" none CG.init).globalValues.lookup "gv"
      = some 1 ∧
    (codegenImport moduleParseExample "m" none CG.init).functions.lookup "secret"
      = some 0 :=
  ⟨rfl, rfl, rfl⟩

/-- C5 amended: a function declared by an imported module is recorded in the
per-module namespace, but it is also created in the importing unit's LLVM
module under its plain name and recorded in the unit's own function table, so
a qualified call and an unqualified call resolve to the same function; and a
module declaration can collide with a same-named declaration of the importer,
in which case the module's copy is rejected with an already-defined error and
its namespace entry aliases the importer's function. -/
theorem module_decls_shared_with_importer (n m a : String) (cg : CG)
    (hfresh : cg.llvmFuncs.lookup n = none)
    (hload : m ∉ cg.loadedModules)
    (hns : cg.moduleFunctions.lookup m = none)
    (hp : n ≠ "print") (hi : n ≠ "input") (hl : n ≠ "len") (ht1 : n ≠ "to_int")
    (ht2 : n ≠ "to_double") (ht3 : n ≠ "to_string") (hf : n ≠ "free") :
    ((codegenImport (fun s => if s = m then some [.funcDecl n] else none) m (some a) cg).llvmFuncs.lookup n
        = some cg.nextId ∧
      (codegenImport (fun s => if s = m then some [.funcDecl n] else none) m (some a) cg).functions.lookup n
        = some cg.nextId ∧
      findModuleFunction
          (codegenImport (fun s => if s = m then some [.funcDecl n] else none) m (some a) cg) m n
        = some cg.nextId ∧
      codegenFunctionCallResolve
          (codegenImport (fun s => if s = m then some [.funcDecl n] else none) m (some a) cg)
          (some a) n
        = .moduleCall cg.nextId ∧
      codegenFunctionCallResolve
          (codegenImport (fun s => if s = m then some [.funcDecl n] else none) m (some a) cg)
          none n
        = .userCall cg.nextId) ∧
    ((codegenImport (fun _ => some [.funcDecl "f"]) "m2" none
          (codegenFunctionDeclM "f" CG.init)).consoleErrors
        = ["Error: Function f is already defined"] ∧
      findModuleFunction
          (codegenImport (fun _ => some [.funcDecl "f"]) "m2" none
            (codegenFunctionDeclM "f" CG.init)) "m2" "f"
        = some 0 ∧
      (codegenFunctionDeclM "f" CG.init).llvmFuncs.lookup "f" = some 0) := by
  refine ⟨?_, by decide, by decide, by decide⟩
  simp [codegenImport, loadModule, hload, hns, ensureModuleNamespace,
    loadModuleDecls, loadModuleDecl, codegenFunctionDeclM, hfresh,
    findModuleFunction, codegenFunctionCallResolve, lookup_updMap, List.lookup,
    hp, hi, hl, ht1, ht2, ht3, hf]

/-- Witness for the amended C5 theorem: importing module `mm` as `al` into the
empty generator state, where `mm` declares `secret2`. -/
theorem module_decls_shared_with_importer_witness :
    (CG.init.llvmFuncs.lookup "secret2" = none ∧
      "mm" ∉ CG.init.loadedModules ∧
      CG.init.moduleFunctions.lookup "mm" = none ∧
      "secret2" ≠ "print" ∧ "secret2" ≠ "input" ∧ "secret2" ≠ "len" ∧
      "secret2" ≠ "to_int" ∧ "secret2" ≠ "to_double" ∧ "secret2" ≠ "to_string" ∧
      "secret2" ≠ "free") ∧
    ((codegenImport (fun s => if s = "mm" then some [.funcDecl "secret2"] else none)
            "mm" (some "al") CG.init).llvmFuncs.lookup "secret2"
        = some CG.init.nextId ∧
      (codegenImport (fun s => if s = "mm" then some [.funcDecl "secret2"] else none)
            "mm" (some "al") CG.init).functions.lookup "secret2"
        = some CG.init.nextId ∧
      findModuleFunction
          (codegenImport (fun s => if s = "mm" then some [.funcDecl "secret2"] else none)
            "mm" (some "al") CG.init) "mm" "secret2"
        = some CG.init.nextId ∧
      codegenFunctionCallResolve
          (codegenImport (fun s => if s = "mm" then some [.funcDecl "secret2"] else none)
            "mm" (some "al") CG.init) (some "al") "secret2"
        = .moduleCall CG.init.nextId ∧
      codegenFunctionCallResolve
          (codegenImport (fun s => if s = "mm" then some [.funcDecl "secret2"] else none)
            "mm" (some "al") CG.init) none "secret2"
        = .userCall CG.init.nextId) :=
  ⟨⟨by decide, by decide, by decide, by decide, by decide, by decide, by decide,
      by decide, by decide, by decide⟩,
    (module_decls_shared_with_importer "secret2" "mm" "al" CG.init
      (by decide) (by decide) (by decide) (by decide) (by decide) (by decide)
      (by decide) (by decide) (by decide) (by decide)).1⟩

/-- C6: re-importing an already loaded module (under any alias) performs no
parsing or lowering at all — the only state change of the second import is
the new alias entry, so in particular no function body is lowered again —
and qualified calls through the two aliases of the module resolve
identically. -/
theorem repeated_import_loads_once (parse : String → Option (List TopDecl))
    (m a b : String) (cg0 : CG) (decls : List TopDecl)
    (hparse : parse m = some decls) :
    codegenImport parse m (some b) (codegenImport parse m (some a) cg0)
        = { codegenImport parse m (some a) cg0 with
            moduleAliases :=
              updMap (codegenImport parse m (some a) cg0).moduleAliases b m } ∧
    (codegenImport parse m (some b) (codegenImport parse m (some a) cg0)).loweredBodies
        = (codegenImport parse m (some a) cg0).loweredBodies ∧
    ∀ fn,
      codegenFunctionCallResolve
          (codegenImport parse m (some b) (codegenImport parse m (some a) cg0))
          (some a) fn
        = codegenFunctionCallResolve
          (codegenImport parse m (some b) (codegenImport parse m (some a) cg0))
          (some b) fn := by
  set cg1 := codegenImport parse m (some a) cg0 with hcg1
  have hmem : m ∈ cg1.loadedModules := by
    rw [hcg1]
    exact import_loaded parse m a cg0 decls hparse
  have h1 : codegenImport parse m (some b) cg1
      = { cg1 with moduleAliases := updMap cg1.moduleAliases b m } := by
    simp [codegenImport, loadModule, hmem]
  refine ⟨h1, by rw [h1], ?_⟩
  intro fn
  have hal : cg1.moduleAliases.lookup a = some m := by
    rw [hcg1]
    exact import_alias_registered parse m a cg0 decls hparse
  have ha : (updMap cg1.moduleAliases b m).lookup a = some m := by
    rw [lookup_updMap]
    by_cases hab : a = b
    · simp [hab]
    · simp [hab, hal]
  have hb : (updMap cg1.moduleAliases b m).lookup b = some m :=
    lookup_updMap_self _ _ _
  rw [h1]
  simp [codegenFunctionCallResolve, ha, hb]

/-- Witness for the C6 theorem: importing the example module twice, as `A`
then as `B`; its single function is lowered exactly once. -/
theorem repeated_import_loads_once_witness :
    moduleParseExample "m" = some [.funcDecl "secret", .varDecl "gv"] ∧
    (codegenImport moduleParseExample "m" (some "B")
          (codegenImport moduleParseExample "m" (some "A") CG.init)
        = { codegenImport moduleParseExample "m" (some "A") CG.init with
            moduleAliases :=
              updMap
                (codegenImport moduleParseExample "m" (some "A") CG.init).moduleAliases
                "B" "m" }) ∧
    ((codegenImport moduleParseExample "m" (some "B")
          (codegenImport moduleParseExample "m" (some "A") CG.init)).loweredBodies
        = (codegenImport moduleParseExample "m" (some "A") CG.init).loweredBodies) ∧
    (codegenFunctionCallResolve
          (codegenImport moduleParseExample "m" (some "B")
            (codegenImport moduleParseExample "m" (some "A") CG.init))
          (some "A") "secret"
        = codegenFunctionCallResolve
          (codegenImport moduleParseExample "m" (some "B")
            (codegenImport moduleParseExample "m" (some "A") CG.init))
          (some "B") "secret") ∧
    (codegenImport moduleParseExample "m" (some "B")
          (codegenImport moduleParseExample "m" (some "A") CG.init)).loweredBodies
      = ["secret"] :=
  ⟨rfl,
    (repeated_import_loads_once moduleParseExample "m" "A" "B" CG.init
        [.funcDecl "secret", .varDecl "gv"] rfl).1,
    (repeated_import_loads_once moduleParseExample "m" "A" "B" CG.init
        [.funcDecl "secret", .varDecl "gv"] rfl).2.1,
    (repeated_import_loads_once moduleParseExample "m" "A" "B" CG.init
        [.funcDecl "secret", .varDecl "gv"] rfl).2.2 "secret",
    rfl⟩

end PPX
